import Mathlib

/-!
# BizCore dashboard client (`static/js/app.js`)

A shallow embedding of the browser client: the values it receives from the
server, the text transforms and renderers it applies to them, and the
prompt/fetch driven actions, followed by the properties proved about them.

Conventions of the embedding

* Strings are Lean strings.  The regular expressions of the source are used
  without the `u` flag, so they only ever act on ASCII characters; a
  character outside the basic plane is two non-word code units in the source
  and one non-word character here, which the transforms treat alike.
* A thrown exception is `Except.error`; `try`/`catch` is a `match` on it.
* Calls that only talk to the outside world (`alert`, `prompt`, `fetch`,
  writes to `innerHTML`, calls of the other loaders) are recorded, in order,
  in a list of `Effect`s.  `console.log`/`console.error` are not recorded.
* What the outside world answers (the user at a prompt, the server to a
  request) is an argument of the function that asks.
* The registry and the dashboard summary have the shapes of their endpoints
  (`Module`, `ModSummary`); module payloads and action responses are arbitrary
  decoded values (`JsVal`).
* The bodies of `loadModules`, `loadDashboard` and `showDashboard` are not
  needed here: a call of a loader is recorded as an effect.
-/

set_option autoImplicit false

deriving instance DecidableEq for Except

namespace BizCore

/-! ## JavaScript values -/

/-- Values decoded from a JSON body, plus `undefined` for what is missing.
`num` holds a number, named by the text JavaScript prints for it
(`Number::toString`: `3`, `12.5`, `1e+21`); the text determines the number,
`0` and `-0` printing alike and being equal; a decoded number is never
not-a-number.  `obj` lists the own properties
in the order in which the object enumerates them. -/
inductive JsVal where
  | undefined
  | null
  | bool (b : Bool)
  | num (text : String)
  | str (s : String)
  | arr (items : List JsVal)
  | obj (fields : List (String × JsVal))

/-- The exception a failed property read or call raises. -/
inductive JsErr where
  | typeError
  deriving DecidableEq, Repr

namespace JsVal

/-- Truthiness (`ToBoolean`). -/
def truthy : JsVal → Bool
  | .undefined => false
  | .null => false
  | .bool b => b
  | .num text => text != "0"
  | .str s => s != ""
  | .arr _ => true
  | .obj _ => true

/-- Strict equality `===` between values decoded from JSON: primitives are
compared by value, while two arrays or two objects reached through different
properties are different references. -/
def strictEq : JsVal → JsVal → Bool
  | .undefined, .undefined => true
  | .null, .null => true
  | .bool a, .bool b => a == b
  | .num a, .num b => a == b
  | .str a, .str b => a == b
  | _, _ => false

/-- First own property called `k` in a property list. -/
def lookup (k : String) : List (String × JsVal) → Option JsVal
  | [] => none
  | (name, v) :: rest => if name = k then some v else lookup k rest

/-- Property read `v.k` for the property names the client reads from decoded
payloads (none of them is `length` or a member of a built-in prototype):
reading from `undefined` or `null` throws, a missing property is
`undefined`. -/
def get (v : JsVal) (k : String) : Except JsErr JsVal :=
  match v with
  | .undefined => .error .typeError
  | .null => .error .typeError
  | .obj fields => .ok ((lookup k fields).getD .undefined)
  | _ => .ok .undefined

/-- The expression `a || b`. -/
def orElse (a b : JsVal) : JsVal := if a.truthy then a else b

/-- Whether a property list has an own property called `k`. -/
def hasOwn (k : String) (fields : List (String × JsVal)) : Bool := (lookup k fields).isSome

mutual
/-- String conversion (`ToString`), as done by a template literal, by `+`
with a string or by a computed property name.  An array is joined; an object
gives `[object Object]` through the inherited `toString`, unless it has an
own property `toString`: a decoded value is never callable, so the conversion
finds no method that yields a primitive and throws. -/
def toStr : JsVal → Except JsErr String
  | .undefined => .ok "undefined"
  | .null => .ok "null"
  | .bool b => .ok (if b then "true" else "false")
  | .num text => .ok text
  | .str s => .ok s
  | .arr items => joinItems items
  | .obj fields => if hasOwn "toString" fields then .error .typeError else .ok "[object Object]"
/-- The method `Array.prototype.join` with the default separator. -/
def joinItems : List JsVal → Except JsErr String
  | [] => .ok ""
  | [v] => elemStr v
  | v :: w :: rest =>
    match elemStr v, joinItems (w :: rest) with
    | .ok first, .ok others => .ok (first ++ "," ++ others)
    | _, _ => .error .typeError
/-- String of one array element inside `join`: `undefined` and `null` are
empty. -/
def elemStr : JsVal → Except JsErr String
  | .undefined => .ok ""
  | .null => .ok ""
  | .bool b => .ok (if b then "true" else "false")
  | .num text => .ok text
  | .str s => .ok s
  | .arr items => joinItems items
  | .obj fields => if hasOwn "toString" fields then .error .typeError else .ok "[object Object]"
end

/-- Whether a value is `undefined`, `null`, a boolean, a number or a
string. -/
def isScalar : JsVal → Bool
  | .arr _ => false
  | .obj _ => false
  | _ => true

/-- The text of a scalar (used for scalars only). -/
def scalarText : JsVal → String
  | .undefined => "undefined"
  | .null => "null"
  | .bool b => if b then "true" else "false"
  | .num text => text
  | .str s => s
  | _ => ""

end JsVal

/-! ## Statistic labels (`renderDashboard`, line 371) -/

/-- The class `\w` of a regular expression without the `u` flag. -/
def isWordChar (c : Char) : Bool := c.isAlphanum || c == '_'

/-- The call `key.replace(/_/g, ' ')`, on the characters of the key. -/
def replaceUnderscores (cs : List Char) : List Char :=
  cs.map fun c => if c = '_' then ' ' else c

/-- The call `s.replace(/\b\w/g, l => l.toUpperCase())`, scanning from the
left; `prevWord` tells whether the character before the current one is a word
character.  A word character that does not follow a word character stands at
a `\b` and is replaced by its upper case. -/
def upperAtBoundaries : Bool → List Char → List Char
  | _, [] => []
  | prevWord, c :: cs =>
    (if isWordChar c && !prevWord then c.toUpper else c) :: upperAtBoundaries (isWordChar c) cs

/-- The label computed for a statistic key:
`key.replace(/_/g, ' ').replace(/\b\w/g, l => l.toUpperCase())`. -/
def label (key : String) : String :=
  ⟨upperAtBoundaries false (replaceUnderscores key.data)⟩

/-- White space as JavaScript understands it (`\s`). -/
def whitespaceChars : List Char :=
  [' ', '\t', '\n', '\x0b', '\x0c', '\r', '\u00a0', '\u1680', '\u2000', '\u2001',
   '\u2002', '\u2003', '\u2004', '\u2005', '\u2006', '\u2007', '\u2008', '\u2009',
   '\u200a', '\u2028', '\u2029', '\u202f', '\u205f', '\u3000', '\ufeff']

/-- Membership in `whitespaceChars`. -/
def isWhitespace (c : Char) : Bool := whitespaceChars.contains c

/-- The documented rule, second step: uppercase the first character of each
whitespace-separated token and leave every other character unchanged;
`atStart` tells whether the current character starts a token. -/
def titleCaseTokens : Bool → List Char → List Char
  | _, [] => []
  | atStart, c :: cs =>
    if isWhitespace c then c :: titleCaseTokens true cs
    else (if atStart then c.toUpper else c) :: titleCaseTokens false cs

/-- The documented rule for labels, following the specification's words:
replace every `_` with a space, then uppercase the first letter of each
whitespace-separated token. -/
def documentedLabel (key : String) : String :=
  ⟨titleCaseTokens true (replaceUnderscores key.data)⟩

/-- The characters on which the code and the documented rule agree: ASCII
letters, digits, the underscore and white space. -/
def isPlainKeyChar (c : Char) : Bool := c.isAlphanum || c == '_' || isWhitespace c

/-! ## Session state -/

/-- A module descriptor of `/api/modules`:
`{type, name, icon, description, category?}`. -/
structure Module where
  type : String
  name : String
  icon : String
  description : String
  category : Option String
  deriving DecidableEq, Repr

/-- A statistic value of the dashboard: a number, named by the text
JavaScript prints for it, or a string. -/
inductive StatValue where
  | num (text : String)
  | str (s : String)
  deriving DecidableEq, Repr

/-- The text a template literal writes for a statistic value. -/
def StatValue.text : StatValue → String
  | .num text => text
  | .str s => s

/-- One entry of `modules_summary`: `{module, summary: {key: value}}`, the
statistics in the order `Object.entries(summary)` lists them. -/
structure ModSummary where
  module : String
  summary : List (String × StatValue)

/-- The body of `/api/dashboard`; `modules_summary` may be missing. -/
structure DashboardData where
  modules_summary : Option (List ModSummary)

/-- The global `state` of the client (lines 7-11). -/
structure State where
  modules : List Module
  currentModule : Option String
  dashboardData : Option DashboardData

/-- The lookup `state.modules.find(m => m.type === id)`. -/
def findModule (modules : List Module) (id : String) : Option Module :=
  modules.find? fun m => m.type == id

/-! ## Sidebar (`renderModules`, lines 47-81) -/

/-- The property names a plain object `{}` inherits from `Object.prototype`;
reading any of them from an object without such an own property yields a
truthy value that is not an array. -/
def objectPrototypeKeys : List String :=
  ["constructor", "__defineGetter__", "__defineSetter__", "hasOwnProperty",
   "__lookupGetter__", "__lookupSetter__", "isPrototypeOf", "propertyIsEnumerable",
   "toString", "valueOf", "__proto__", "toLocaleString"]

/-- The bucket name `mod.category || 'general'` (line 58): a missing and an
empty category both give `general`. -/
def bucketOf (mod : Module) : String :=
  match mod.category with
  | some c => if c = "" then "general" else c
  | none => "general"

/-- The call `modulesByCategory[category].push(mod)` when `category` is an
own property: the module is appended to that bucket.  `none` when there is no
such own property. -/
def pushInto (category : String) (mod : Module) :
    List (String × List Module) → Option (List (String × List Module))
  | [] => none
  | (k, ms) :: rest =>
    if k = category then some ((k, ms ++ [mod]) :: rest)
    else (pushInto category mod rest).map fun r => (k, ms) :: r

/-- One round of the grouping loop (lines 58-62) on the own properties of
`modulesByCategory`, kept in creation order.  When `category` is not an own
property but is inherited from `Object.prototype`, the test
`!modulesByCategory[category]` is false, no bucket is created, and calling
the missing `push` throws. -/
def addToCategory (byCategory : List (String × List Module)) (mod : Module) :
    Except JsErr (List (String × List Module)) :=
  let category := bucketOf mod
  match pushInto category mod byCategory with
  | some updated => .ok updated
  | none =>
    if category ∈ objectPrototypeKeys then .error .typeError
    else .ok (byCategory ++ [(category, [mod])])

/-- The grouping loop `state.modules.forEach(...)` (lines 56-63), started
from the properties already created. -/
def groupFrom : List (String × List Module) → List Module →
    Except JsErr (List (String × List Module))
  | byCategory, [] => .ok byCategory
  | byCategory, mod :: rest =>
    match addToCategory byCategory mod with
    | .ok updated => groupFrom updated rest
    | .error e => .error e

/-- The object `modulesByCategory` after the grouping loop. -/
def groupByCategory (modules : List Module) : Except JsErr (List (String × List Module)) :=
  groupFrom [] modules

/-- The number a property name denotes when it is an array index: a decimal
numeral without superfluous leading zero, below `2^32 - 1`. -/
def arrayIndex (k : String) : Option Nat :=
  if k.data ≠ [] ∧ (k.data.all Char.isDigit) = true ∧ (k.data.head? ≠ some '0' ∨ k.data.length = 1) then
    let n := k.data.foldl (fun n c => n * 10 + (c.toNat - 48)) 0
    if n < 4294967295 then some n else none
  else none

/-- The order of `Object.entries`: own properties whose name is an array
index first, by ascending index, then the others in creation order. -/
def objectEntries {α : Type} (own : List (String × α)) : List (String × α) :=
  (own.filter fun e => (arrayIndex e.1).isSome).insertionSort
      (fun a b => (arrayIndex a.1).getD 0 ≤ (arrayIndex b.1).getD 0)
    ++ own.filter fun e => !(arrayIndex e.1).isSome

/-- The card appended for one module (lines 70-76). -/
def moduleCard (category : String) (mod : Module) : String :=
  "\n                <div class=\"module-card\" data-module=\"" ++ mod.type
    ++ "\" onclick=\"selectModule(\x27" ++ mod.type
    ++ "\x27)\">\n                    <h3>" ++ mod.icon ++ " " ++ mod.name
    ++ "</h3>\n                    <p>" ++ mod.description
    ++ "</p>\n                    <div class=\"module-category\">" ++ category
    ++ "</div>\n                </div>\n            "

/-- The cards appended to `html` by the rendering loop (lines 68-78), in
order. -/
def moduleCards (modules : List Module) : Except JsErr (List String) :=
  match groupByCategory modules with
  | .ok byCategory =>
    .ok ((objectEntries byCategory).flatMap fun e => e.2.map (moduleCard e.1))
  | .error e => .error e

/-- The function `renderModules`: the text assigned to the `innerHTML` of
`#modules-list`, or the exception that escapes. -/
def renderModules (modules : List Module) : Except JsErr String :=
  if modules.length = 0 then
    .ok "<div class=\"loading\">No hay módulos disponibles</div>"
  else
    match moduleCards modules with
    | .ok cards => .ok (String.join cards)
    | .error e => .error e

/-! ## Dashboard (`renderDashboard`, lines 349-384) -/

/-- One statistic line (lines 371-377). -/
def dashboardStat (key : String) (value : StatValue) : String :=
  "\n                <div class=\"dashboard-stat\">\n                    <span class=\"label\">"
    ++ label key ++ "</span>\n                    <span class=\"value\">" ++ value.text
    ++ "</span>\n                </div>\n            "

/-- The card of one summary entry whose module was found (lines 363-380). -/
def dashboardCard (module : Module) (summary : List (String × StatValue)) : String :=
  "\n            <div class=\"dashboard-card\">\n                <h3>" ++ module.icon ++ " "
    ++ module.name ++ "</h3>\n        "
    ++ String.join (summary.map fun kv => dashboardStat kv.1 kv.2) ++ "</div>"

/-- The cards appended to `html` by the loop over `modules_summary`
(lines 359-381): an entry whose module is not found returns early. -/
def dashboardCards (modules : List Module) : List ModSummary → List String
  | [] => []
  | modSummary :: rest =>
    match findModule modules modSummary.module with
    | none => dashboardCards modules rest
    | some module => dashboardCard module modSummary.summary :: dashboardCards modules rest

/-- The function `renderDashboard`: the text assigned to the `innerHTML` of
`#dashboard-cards`. -/
def renderDashboard (state : State) : String :=
  match state.dashboardData with
  | none => "<div class=\"loading\">No hay datos disponibles</div>"
  | some data =>
    match data.modules_summary with
    | none => "<div class=\"loading\">No hay datos disponibles</div>"
    | some summaries => String.join (dashboardCards state.modules summaries)

/-! ## Numbers read from prompts (`parseFloat`, `parseInt`) -/

/-- The result of `parseFloat` or `parseInt`: not-a-number, an infinity, or
the decimal `(-1)^negative * mantissa * 10^exponent` denoted by the numeral
that was read (its exact value, before rounding to a double). -/
inductive JsNumber where
  | nan
  | infinity (negative : Bool)
  | decimal (negative : Bool) (mantissa : Nat) (exponent : Int)
  deriving DecidableEq, Repr

/-- The number denoted by a natural-number literal of the source. -/
def JsNumber.ofNat (n : Nat) : JsNumber := .decimal false n 0

/-- Removal of leading white space and line terminators (`TrimString` at the
start). -/
def trimStart (cs : List Char) : List Char := cs.dropWhile isWhitespace

/-- Value of a string of decimal digits. -/
def digitsValue (ds : List Char) : Nat := ds.foldl (fun n c => n * 10 + (c.toNat - 48)) 0

/-- Value of a hexadecimal digit. -/
def hexDigit (c : Char) : Option Nat :=
  if c.isDigit then some (c.toNat - 48)
  else if 'a' ≤ c ∧ c ≤ 'f' then some (c.toNat - 87)
  else if 'A' ≤ c ∧ c ≤ 'F' then some (c.toNat - 55)
  else none

/-- Value of a string of hexadecimal digits. -/
def hexValue (ds : List Char) : Nat := ds.foldl (fun n c => n * 16 + (hexDigit c).getD 0) 0

/-- The sign read at the start of a numeral and the rest of the text. -/
def splitSign : List Char → Bool × List Char
  | '-' :: rest => (true, rest)
  | '+' :: rest => (false, rest)
  | cs => (false, cs)

/-- The call `parseInt(input)` without a radix: leading white space is
skipped, a sign is read, `0x`/`0X` selects base 16, and the longest run of
digits gives the value; no digit at all gives not-a-number. -/
def parseInt (input : String) : JsNumber :=
  let signed := splitSign (trimStart input.data)
  match signed.2 with
  | '0' :: 'x' :: rest =>
    let z := rest.takeWhile fun c => (hexDigit c).isSome
    if z = [] then .nan else .decimal signed.1 (hexValue z) 0
  | '0' :: 'X' :: rest =>
    let z := rest.takeWhile fun c => (hexDigit c).isSome
    if z = [] then .nan else .decimal signed.1 (hexValue z) 0
  | s =>
    let z := s.takeWhile Char.isDigit
    if z = [] then .nan else .decimal signed.1 (digitsValue z) 0

/-- The exponent part `e`/`E`, optional sign, digits; it counts only when at
least one digit follows. -/
def exponentPart : List Char → Int
  | [] => 0
  | c :: rest =>
    if c = 'e' ∨ c = 'E' then
      let signed := splitSign rest
      let ds := signed.2.takeWhile Char.isDigit
      if ds = [] then 0
      else if signed.1 then -(digitsValue ds : Int) else (digitsValue ds : Int)
    else 0

/-- The call `parseFloat(input)`: leading white space is skipped and the
longest initial text that is a decimal literal (`Infinity`, or digits with an
optional fraction and exponent, each optionally signed) gives the value; when
there is none the result is not-a-number. -/
def parseFloat (input : String) : JsNumber :=
  let signed := splitSign (trimStart input.data)
  let s := signed.2
  if "Infinity".data.isPrefixOf s then .infinity signed.1
  else
    let intDigits := s.takeWhile Char.isDigit
    let afterInt := s.dropWhile Char.isDigit
    let fracDigits := match afterInt with
      | '.' :: r => r.takeWhile Char.isDigit
      | _ => []
    let afterFrac := match afterInt with
      | '.' :: r => r.dropWhile Char.isDigit
      | r => r
    if intDigits = [] ∧ fracDigits = [] then .nan
    else .decimal signed.1 (digitsValue (intDigits ++ fracDigits))
      (exponentPart afterFrac - fracDigits.length)

/-! ## Effects -/

/-- Values the client builds itself and sends as action parameters. -/
inductive ParamVal where
  | null
  | bool (b : Bool)
  | number (x : JsNumber)
  | str (s : String)
  | list (items : List ParamVal)
  | record (fields : List (String × ParamVal))

/-- A parameter mapping: the properties of the object literal, in order. -/
abbrev Params := List (String × ParamVal)

/-- The value of a variable holding the answer of a prompt: the text, or
`null` when the prompt was cancelled. -/
def ParamVal.ofAnswer : Option String → ParamVal
  | some s => .str s
  | none => .null

/-- What a function does to the world around it, in the order it does it. -/
inductive Effect where
  /-- A call of `prompt(message)`. -/
  | prompt (message : String)
  /-- A call of `alert(message)`. -/
  | alert (message : String)
  /-- A call of `fetch(url)`. -/
  | fetchGet (url : String)
  /-- A call of `fetch(url, ...)` with method POST and body
  `JSON.stringify({ action, params })`. -/
  | fetchPost (url : String) (action : String) (params : Params)
  /-- An assignment to `document.getElementById(id).innerHTML`. -/
  | setInnerHTML (id : String) (html : String)
  /-- The class `active` is removed from every `.module-card`. -/
  | deactivateCards
  /-- The class `active` is added to the element `[data-module="id"]`, when
  there is one. -/
  | activateCard (id : String)
  /-- The dashboard section is hidden and the module section shown. -/
  | showModuleSection
  /-- A call of `loadModuleData(moduleType)`. -/
  | loadModuleData (moduleType : String)
  /-- A call of `loadDashboard()`. -/
  | loadDashboard
  /-- A call of `executeModuleAction(moduleType, action, params)`. -/
  | executeModuleAction (moduleType action : String) (params : Params)

/-- The function `showError` (lines 407-409). -/
def showError (message : String) : Effect := .alert ("❌ Error: " ++ message)

/-- What a `fetch` followed by `response.json()` gives: the decoded body, or
a rejection (no connection, or a body that is not JSON). -/
inductive FetchOutcome where
  | rejected
  | json (body : JsVal)

/-! ## Prompt-driven actions (lines 413-467)

The argument `user` gives the answer of the user to the prompt showing a
given message: `none` when the prompt is cancelled.  Within one action every
message is shown at most once. -/

/-- The test `!answer` on the answer of a prompt: cancelled or empty. -/
def isBlank : Option String → Bool
  | none => true
  | some s => s == ""

/-- The expression `answer || fallback` on the answer of a prompt. -/
def answerOr (answer : Option String) (fallback : String) : String :=
  match answer with
  | none => fallback
  | some s => if s = "" then fallback else s

/-- The function `addCliente` (lines 413-424). -/
def addCliente (user : String → Option String) : List Effect :=
  let nombre := user "Nombre del cliente:"
  if isBlank nombre then [.prompt "Nombre del cliente:"]
  else
    [.prompt "Nombre del cliente:", .prompt "Email:", .prompt "Teléfono:", .prompt "Empresa:",
     .executeModuleAction "crm" "add_cliente"
       [("nombre", .ofAnswer nombre), ("email", .ofAnswer (user "Email:")),
        ("telefono", .ofAnswer (user "Teléfono:")), ("empresa", .ofAnswer (user "Empresa:"))]]

/-- The function `addOportunidad` (lines 426-436). -/
def addOportunidad (user : String → Option String) : List Effect :=
  let titulo := user "Título de la oportunidad:"
  if isBlank titulo then [.prompt "Título de la oportunidad:"]
  else
    let valor := parseFloat (answerOr (user "Valor estimado (€):") "0")
    let probabilidad := parseInt (answerOr (user "Probabilidad (0-100):") "50")
    [.prompt "Título de la oportunidad:", .prompt "Valor estimado (€):",
     .prompt "Probabilidad (0-100):",
     .executeModuleAction "crm" "add_oportunidad"
       [("titulo", .ofAnswer titulo), ("valor", .number valor),
        ("probabilidad", .number probabilidad), ("cliente_id", .number (.ofNat 1))]]

/-- The function `addProyecto` (lines 438-447). -/
def addProyecto (user : String → Option String) : List Effect :=
  let nombre := user "Nombre del proyecto:"
  if isBlank nombre then [.prompt "Nombre del proyecto:"]
  else
    [.prompt "Nombre del proyecto:", .prompt "Descripción:",
     .executeModuleAction "proyectos" "add_proyecto"
       [("nombre", .ofAnswer nombre), ("descripcion", .ofAnswer (user "Descripción:"))]]

/-- One entry of the `campos` literal of `createFormulario`. -/
def campo (name label type : String) (required : Bool) : ParamVal :=
  .record [("name", .str name), ("label", .str label), ("type", .str type),
    ("required", .bool required)]

/-- The function `createFormulario` (lines 449-463). -/
def createFormulario (user : String → Option String) : List Effect :=
  let titulo := user "Título del formulario:"
  if isBlank titulo then [.prompt "Título del formulario:"]
  else
    [.prompt "Título del formulario:", .prompt "Descripción:",
     .executeModuleAction "formularios" "create_formulario"
       [("titulo", .ofAnswer titulo), ("descripcion", .ofAnswer (user "Descripción:")),
        ("campos", .list [campo "nombre" "Nombre" "text" true,
                          campo "email" "Email" "email" true,
                          campo "comentario" "Comentario" "textarea" false])]]

/-- The function `generarInforme` (lines 465-467). -/
def generarInforme (tipo : String) : List Effect :=
  [.executeModuleAction "informes" "generar_informe" [("tipo", .str tipo)]]

/-! ## `JSON.stringify(value, null, 2)` -/

/-- A hexadecimal digit in lower case. -/
def hexChar (n : Nat) : Char :=
  if n < 10 then Char.ofNat (48 + n) else Char.ofNat (87 + n)

/-- The characters standing for one character inside a JSON string; 34 is
the double quote and 92 the backslash. -/
def quoteChar (c : Char) : List Char :=
  if c.toNat = 34 then [Char.ofNat 92, Char.ofNat 34]
  else if c.toNat = 92 then [Char.ofNat 92, Char.ofNat 92]
  else if c = '\x08' then [Char.ofNat 92, 'b']
  else if c = '\x0c' then [Char.ofNat 92, 'f']
  else if c = '\n' then [Char.ofNat 92, 'n']
  else if c = '\r' then [Char.ofNat 92, 'r']
  else if c = '\t' then [Char.ofNat 92, 't']
  else if c.toNat < 32 then
    [Char.ofNat 92, 'u', '0', '0', hexChar (c.toNat / 16), hexChar (c.toNat % 16)]
  else [c]

/-- A string as JSON text (`QuoteJSONString`). -/
def quoteJSON (s : String) : String :=
  ⟨Char.ofNat 34 :: (s.data.flatMap quoteChar ++ [Char.ofNat 34])⟩

mutual
/-- The text `JSON.stringify` gives for a value nested at the indentation
`indent`, each level adding two spaces; `none` is the result `undefined`. -/
def stringifyAt (indent : String) : JsVal → Option String
  | .undefined => none
  | .null => some "null"
  | .bool b => some (if b then "true" else "false")
  | .num text =>
    some (if text = "Infinity" ∨ text = "-Infinity" then "null" else text)
  | .str s => some (quoteJSON s)
  | .arr items =>
    match stringifyItems (indent ++ "  ") items with
    | [] => some "[]"
    | parts =>
      some ("[\n" ++ indent ++ "  " ++ String.intercalate (",\n" ++ indent ++ "  ") parts
        ++ "\n" ++ indent ++ "]")
  | .obj fields =>
    match stringifyFields (indent ++ "  ") fields with
    | [] => some "\x7b\x7d"
    | parts =>
      some ("\x7b\n" ++ indent ++ "  " ++ String.intercalate (",\n" ++ indent ++ "  ") parts
        ++ "\n" ++ indent ++ "\x7d")
/-- The texts of the elements of an array: `undefined` is written `null`. -/
def stringifyItems (indent : String) : List JsVal → List String
  | [] => []
  | v :: rest => (stringifyAt indent v).getD "null" :: stringifyItems indent rest
/-- The texts of the properties of an object: a property whose value is
`undefined` is left out. -/
def stringifyFields (indent : String) : List (String × JsVal) → List String
  | [] => []
  | (k, v) :: rest =>
    match stringifyAt indent v with
    | none => stringifyFields indent rest
    | some text => (quoteJSON k ++ ": " ++ text) :: stringifyFields indent rest
end

/-- The text interpolated for `JSON.stringify(value, null, 2)`. -/
def stringify (value : JsVal) : String := (stringifyAt "" value).getD "undefined"

/-! ## Module renderers (lines 134-327)

The page is taken to contain the elements the code looks up by id. -/

/-- What the browser contributes besides the language itself. -/
structure Host where
  /-- The text of `new Date(v).toLocaleString('es-ES')`. -/
  toLocaleString : JsVal → String
  /-- The text of the member of `Object.prototype` with the given name. -/
  inheritedText : String → String
  /-- Whether `document.querySelector` accepts the selector text; it throws
  on a text that is not a selector. -/
  selectorAccepted : String → Bool

/-- Length of a string in UTF-16 code units. -/
def utf16Length (s : String) : Nat :=
  (s.data.map fun c => if c.toNat < 65536 then 1 else 2).sum

/-- The property read `v.length`. -/
def getLength : JsVal → Except JsErr JsVal
  | .undefined => .error .typeError
  | .null => .error .typeError
  | .arr items => .ok (.num (toString items.length))
  | .str s => .ok (.num (toString (utf16Length s)))
  | .obj fields => .ok ((JsVal.lookup "length" fields).getD .undefined)
  | _ => .ok .undefined

/-- The text appended by `items.forEach(row)` where each round appends
`row item`. -/
def appendRows (row : JsVal → Except JsErr String) : List JsVal → Except JsErr String
  | [] => .ok ""
  | item :: rest =>
    match row item with
    | .error e => .error e
    | .ok text =>
      match appendRows row rest with
      | .error e => .error e
      | .ok texts => .ok (text ++ texts)

/-- The call `collection.forEach(row)`: only an array has the method. -/
def forEach (collection : JsVal) (row : JsVal → Except JsErr String) : Except JsErr String :=
  match collection with
  | .arr items => appendRows row items
  | _ => .error .typeError

/-- The line of one customer (lines 181-186). -/
def clienteRow (cliente : JsVal) : Except JsErr String := do
  let nombre ← (← cliente.get "nombre").toStr
  let empresa ← (← cliente.get "empresa").toStr
  let email ← (← cliente.get "email").toStr
  let telefono ← (← cliente.get "telefono").toStr
  pure ("\n                <div style=\"padding: 1rem; border-bottom: 1px solid #e2e8f0;\">\n                    <strong>"
    ++ nombre ++ "</strong> - " ++ empresa ++ "<br>\n                    <small>📧 "
    ++ email ++ " | 📱 " ++ telefono ++ "</small>\n                </div>\n            ")

/-- The colour of a state (lines 204-209): the table is read with the state,
converted to a string, as property name, so a name inherited from
`Object.prototype` yields that member; anything else missing from the table
yields the default. -/
def estadoColor (host : Host) (estado : JsVal) : Except JsErr String := do
  let key ← estado.toStr
  pure (
    if key = "abierta" then "#10b981"
    else if key = "en_proceso" then "#f59e0b"
    else if key = "ganada" then "#2563eb"
    else if key = "perdida" then "#ef4444"
    else if key ∈ objectPrototypeKeys then host.inheritedText key
    else "#64748b")

/-- The line of one opportunity (lines 204-217). -/
def oportunidadRow (host : Host) (op : JsVal) : Except JsErr String := do
  let color ← estadoColor host (← op.get "estado")
  let titulo ← (← op.get "titulo").toStr
  let valor ← (← op.get "valor").toStr
  let probabilidad ← (← op.get "probabilidad").toStr
  let estado ← (← op.get "estado").toStr
  pure ("\n                <div style=\"padding: 1rem; border-bottom: 1px solid #e2e8f0;\">\n                    <strong>"
    ++ titulo ++ "</strong> - " ++ valor
    ++ "€<br>\n                    <small>Probabilidad: " ++ probabilidad
    ++ "%</small>\n                    <span style=\"background: " ++ color
    ++ "; color: white; padding: 0.25rem 0.5rem; border-radius: 4px; font-size: 0.75rem; margin-left: 0.5rem;\">"
    ++ estado ++ "</span>\n                </div>\n            ")

/-- The function `renderCRMContent` (lines 166-224). -/
def renderCRMContent (host : Host) (data : JsVal) : Except JsErr String := do
  let clientes := (← data.get "clientes").orElse (.arr [])
  let oportunidades := (← data.get "oportunidades").orElse (.arr [])
  let clientesLength ← getLength clientes
  let clientesCount ← clientesLength.toStr
  let clientesRows ←
    if clientesLength.strictEq (.num "0") then
      pure "<p>No hay clientes registrados. Crea el primero para comenzar.</p>"
    else forEach clientes clienteRow
  let oportunidadesLength ← getLength oportunidades
  let oportunidadesCount ← oportunidadesLength.toStr
  let oportunidadesRows ←
    if oportunidadesLength.strictEq (.num "0") then pure "<p>No hay oportunidades registradas.</p>"
    else forEach oportunidades (oportunidadRow host)
  pure ("\n        <div class=\"module-content-card\">\n            <h3>👥 Clientes ("
    ++ clientesCount
    ++ ")</h3>\n            <button class=\"btn\" onclick=\"addCliente()\">➕ Nuevo Cliente</button>\n            <div style=\"margin-top: 1rem;\">\n    "
    ++ clientesRows
    ++ "\n            </div>\n        </div>\n        \n        <div class=\"module-content-card\">\n            <h3>💼 Oportunidades de Venta ("
    ++ oportunidadesCount
    ++ ")</h3>\n            <button class=\"btn\" onclick=\"addOportunidad()\">➕ Nueva Oportunidad</button>\n            <div style=\"margin-top: 1rem;\">\n    "
    ++ oportunidadesRows ++ "</div></div>")

/-- The length of `items.filter(test)`: the test runs on every element, and
an exception it raises escapes. -/
def filterLength (test : JsVal → Except JsErr Bool) : List JsVal → Except JsErr Nat
  | [] => .ok 0
  | item :: rest =>
    match test item with
    | .error e => .error e
    | .ok keep =>
      match filterLength test rest with
      | .error e => .error e
      | .ok n => .ok (if keep then n + 1 else n)

/-- The number `tareas.filter(t => t.proyecto_id === proyecto.id).length`
(line 244); reading a property of a missing task or project throws, and only
an array has `filter`. -/
def countTareas (tareas proyecto : JsVal) : Except JsErr Nat :=
  match tareas with
  | .arr items =>
    filterLength (fun t => do
      let ref ← t.get "proyecto_id"
      let id ← proyecto.get "id"
      pure (ref.strictEq id)) items
  | _ => .error .typeError

/-- The text of a project line, given the texts of its fields and its task
count (lines 245-251). -/
def proyectoText (nombre descripcion estado : String) (tareasProyecto : Nat) : String :=
  "\n                <div style=\"padding: 1rem; border-bottom: 1px solid #e2e8f0;\">\n                    <strong>"
    ++ nombre ++ "</strong><br>\n                    <small>" ++ descripcion
    ++ "</small><br>\n                    <small>📊 Estado: " ++ estado ++ " | 📋 Tareas: "
    ++ toString tareasProyecto ++ "</small>\n                </div>\n            "

/-- The line of one project (lines 244-251). -/
def proyectoRow (tareas proyecto : JsVal) : Except JsErr String := do
  let tareasProyecto ← countTareas tareas proyecto
  let nombre ← (← proyecto.get "nombre").toStr
  let descripcion ← (← proyecto.get "descripcion").toStr
  let estado ← (← proyecto.get "estado").toStr
  pure (proyectoText nombre descripcion estado tareasProyecto)

/-- The opening text of the projects card, given the text of the length
(lines 233-238). -/
def proyectosHeader (length : String) : String :=
  "\n        <div class=\"module-content-card\">\n            <h3>📋 Proyectos (" ++ length
    ++ ")</h3>\n            <button class=\"btn\" onclick=\"addProyecto()\">➕ Nuevo Proyecto</button>\n            <div style=\"margin-top: 1rem;\">\n    "

/-- The function `renderProyectosContent` (lines 229-258). -/
def renderProyectosContent (data : JsVal) : Except JsErr String := do
  let proyectos := (← data.get "proyectos").orElse (.arr [])
  let tareas := (← data.get "tareas").orElse (.arr [])
  let proyectosLength ← getLength proyectos
  let proyectosCount ← proyectosLength.toStr
  let rows ←
    if proyectosLength.strictEq (.num "0") then
      pure "<p>No hay proyectos. Crea el primero para comenzar.</p>"
    else forEach proyectos (proyectoRow tareas)
  pure (proyectosHeader proyectosCount ++ rows ++ "</div></div>")

/-- The call `renderProyectosContent(data)` with the payload as explicit
state: the payload as the call leaves it, and what the call returns.  The
body reads `data.proyectos`, `data.tareas`, `length` and the fields of the
records, compares with `===` and converts to strings; `||`, `filter` and the
template literals build new values; it assigns to no property and calls no
method that changes its receiver, so the payload is handed back as it
came. -/
def callRenderProyectosContent (data : JsVal) : JsVal × Except JsErr String :=
  (data, renderProyectosContent data)

/-- The line of one form (lines 277-283). -/
def formularioRow (form : JsVal) : Except JsErr String := do
  let titulo ← (← form.get "titulo").toStr
  let descripcion ← (← form.get "descripcion").toStr
  let respuestas ← ((← form.get "respuestas_count").orElse (.num "0")).toStr
  let activo ← form.get "activo"
  pure ("\n                <div style=\"padding: 1rem; border-bottom: 1px solid #e2e8f0;\">\n                    <strong>"
    ++ titulo ++ "</strong><br>\n                    <small>" ++ descripcion
    ++ "</small><br>\n                    <small>📊 Respuestas: "
    ++ respuestas ++ " | Estado: "
    ++ (if activo.truthy then "✅ Activo" else "❌ Inactivo")
    ++ "</small>\n                </div>\n            ")

/-- The function `renderFormulariosContent` (lines 263-290). -/
def renderFormulariosContent (data : JsVal) : Except JsErr String := do
  let formularios := (← data.get "formularios").orElse (.arr [])
  let formulariosLength ← getLength formularios
  let formulariosCount ← formulariosLength.toStr
  let rows ←
    if formulariosLength.strictEq (.num "0") then pure "<p>No hay formularios creados.</p>"
    else forEach formularios formularioRow
  pure ("\n        <div class=\"module-content-card\">\n            <h3>📝 Formularios ("
    ++ formulariosCount
    ++ ")</h3>\n            <button class=\"btn\" onclick=\"createFormulario()\">➕ Nuevo Formulario</button>\n            <div style=\"margin-top: 1rem;\">\n    "
    ++ rows ++ "</div></div>")

/-- The block of one generated report (lines 314-320).  The constructor
`Date` converts its argument to a primitive, which throws exactly when the
conversion to a string does. -/
def informeRow (host : Host) (informe : JsVal) : Except JsErr String := do
  let contenido ← informe.get "contenido"
  let tipo ← (← contenido.get "tipo").toStr
  let fecha ← informe.get "fecha_generacion"
  let _ ← fecha.toStr
  pure ("\n                <div style=\"padding: 1rem; border: 1px solid #e2e8f0; border-radius: 8px; margin-bottom: 1rem;\">\n                    <strong>"
    ++ tipo ++ "</strong><br>\n                    <small>📅 " ++ host.toLocaleString fecha
    ++ "</small>\n                    <pre style=\"background: #f8fafc; padding: 1rem; margin-top: 0.5rem; border-radius: 4px; font-size: 0.85rem;\">"
    ++ stringify contenido ++ "</pre>\n                </div>\n            ")

/-- The call `informes.slice().reverse().forEach(row)`: only an array has
`reverse` after `slice`. -/
def forEachReversed (collection : JsVal) (row : JsVal → Except JsErr String) :
    Except JsErr String :=
  match collection with
  | .arr items => appendRows row items.reverse
  | _ => .error .typeError

/-- The function `renderInformesContent` (lines 295-327). -/
def renderInformesContent (host : Host) (data : JsVal) : Except JsErr String := do
  let informes := (← data.get "informes_generados").orElse (.arr [])
  let informesLength ← getLength informes
  let informesCount ← informesLength.toStr
  let rows ←
    if informesLength.strictEq (.num "0") then
      pure "<p>No hay informes generados. Genera el primero con los botones de arriba.</p>"
    else forEachReversed informes (informeRow host)
  pure ("\n        <div class=\"module-content-card\">\n            <h3>📊 Informes Generados ("
    ++ informesCount
    ++ ")</h3>\n            <div style=\"display: flex; gap: 1rem; margin: 1rem 0;\">\n                <button class=\"btn\" onclick=\"generarInforme(\x27general\x27)\">📄 Informe General</button>\n                <button class=\"btn\" onclick=\"generarInforme(\x27ventas\x27)\">💰 Informe de Ventas</button>\n                <button class=\"btn\" onclick=\"generarInforme(\x27proyectos\x27)\">📋 Informe de Proyectos</button>\n                <button class=\"btn\" onclick=\"generarInforme(\x27integracion\x27)\">🔗 Informe de Integración</button>\n            </div>\n            <div style=\"margin-top: 1rem;\">\n    "
    ++ rows ++ "</div></div>")

/-- The card that opens the module view (lines 138-143). -/
def moduleHeader (module : Module) : String :=
  "\n        <div class=\"module-content-card\">\n            <h3>" ++ module.icon ++ " "
    ++ module.name ++ "</h3>\n            <p>" ++ module.description
    ++ "</p>\n        </div>\n    "

/-- The generic card of a module without a renderer of its own
(lines 155-157). -/
def genericDump (data : JsVal) : String :=
  "<div class=\"module-content-card\">\n            <pre>" ++ stringify data
    ++ "</pre>\n        </div>"

/-- The function `renderModuleContent` (lines 134-161): the text assigned to
the `innerHTML` of `#module-content`, or the exception that escapes.  When no
module of the registry has the type, `module` is `undefined` and reading
`module.icon` throws. -/
def renderModuleContent (host : Host) (modules : List Module) (moduleType : String)
    (data : JsVal) : Except JsErr String :=
  match findModule modules moduleType with
  | none => .error .typeError
  | some module =>
    if moduleType = "crm" then
      (renderCRMContent host data).map fun body => moduleHeader module ++ body
    else if moduleType = "proyectos" then
      (renderProyectosContent data).map fun body => moduleHeader module ++ body
    else if moduleType = "formularios" then
      (renderFormulariosContent data).map fun body => moduleHeader module ++ body
    else if moduleType = "informes" then
      (renderInformesContent host data).map fun body => moduleHeader module ++ body
    else .ok (moduleHeader module ++ genericDump data)

/-! ## Loading a module and running an action -/

/-- The function `loadModuleData` (lines 112-129), given what the request
gives.  Everything after the placeholder is inside the `try`: an exception
of `renderModuleContent`, or of the conversion of the error message to a
string, is caught like a failed connection. -/
def loadModuleData (host : Host) (state : State) (moduleType : String)
    (outcome : FetchOutcome) : List Effect :=
  [.setInnerHTML "module-content" "<div class=\"loading\">Cargando datos del módulo...</div>",
   .fetchGet ("/api/module/" ++ moduleType)] ++
  match outcome with
  | .rejected => [showError "Error de conexión con el servidor"]
  | .json result =>
    match result.get "ok", result.get "data", result.get "error" with
    | .ok ok, .ok data, .ok error =>
      if ok.truthy then
        match renderModuleContent host state.modules moduleType data with
        | .ok html => [.setInnerHTML "module-content" html]
        | .error _ => [showError "Error de conexión con el servidor"]
      else
        match (error.orElse (.str "Error cargando módulo")).toStr with
        | .ok message => [showError message]
        | .error _ => [showError "Error de conexión con el servidor"]
    | _, _, _ => [showError "Error de conexión con el servidor"]

/-- How a call of an `async` function without `try` ends: the state it
leaves, what it did, and whether its promise was rejected by an exception. -/
structure Completion where
  state : State
  effects : List Effect
  rejected : Bool

/-- The selector of the card of a module (line 96). -/
def cardSelector (moduleType : String) : String := "[data-module=\"" ++ moduleType ++ "\"]"

/-- The function `selectModule` (lines 86-107), the awaited `loadModuleData`
included.  The state is assigned first; `querySelector` throws on a text that
is not a selector, which ends the function there. -/
def selectModule (host : Host) (state : State) (moduleType : String)
    (outcome : FetchOutcome) : Completion :=
  let state1 := { state with currentModule := some moduleType }
  if host.selectorAccepted (cardSelector moduleType) then
    { state := state1,
      effects := [.deactivateCards, .activateCard moduleType, .showModuleSection,
        .loadModuleData moduleType] ++ loadModuleData host state1 moduleType outcome,
      rejected := false }
  else { state := state1, effects := [.deactivateCards], rejected := true }

/-- The function `executeModuleAction` (lines 472-500), given what the
request gives.  The reads `result.ok` and `result.result.message` and the
conversion of the message to a string come before any call of the branch
they belong to, so an exception they raise reaches the `catch` with nothing
done yet. -/
def executeModuleAction (state : State) (moduleType action : String) (params : Params)
    (outcome : FetchOutcome) : List Effect :=
  .fetchPost ("/api/module/" ++ moduleType) action params ::
  match outcome with
  | .rejected => [showError "Error de conexión"]
  | .json result =>
    match result.get "ok" with
    | .error _ => [showError "Error de conexión"]
    | .ok ok =>
      if ok.truthy then
        match ((result.get "result").bind fun r => r.get "message").bind
            fun message => (message.orElse (.str "Acción completada")).toStr with
        | .error _ => [showError "Error de conexión"]
        | .ok text =>
          [.alert ("✅ " ++ text)]
            ++ (if state.currentModule = some moduleType then [.loadModuleData moduleType] else [])
            ++ [.loadDashboard]
      else
        match (result.get "error").bind fun error => error.toStr with
        | .error _ => [showError "Error de conexión"]
        | .ok text => [showError text]

/-! ## Vocabulary of the properties -/

/-- Whether an identifier is the type of a module of the registry. -/
def inRegistry (modules : List Module) (id : String) : Bool :=
  modules.any fun m => m.type == id

/-- A module the client has no renderer for. -/
def inventarioModule : Module := ⟨"inventario", "Inventario", "📦", "Existencias", none⟩

/-- The property `k` of a record, `undefined` when it is missing or when the
value is not a record. -/
def JsVal.field (v : JsVal) (k : String) : JsVal :=
  match v with
  | .obj fields => (JsVal.lookup k fields).getD .undefined
  | _ => .undefined

/-- Whether a value is a record (a JSON object). -/
def JsVal.isRecord : JsVal → Bool
  | .obj _ => true
  | _ => false

/-- A project record as the projects view prints it: a record whose `nombre`,
`descripcion` and `estado` are missing or scalars. -/
def isProyecto (p : JsVal) : Bool :=
  p.isRecord && (p.field "nombre").isScalar && (p.field "descripcion").isScalar
    && (p.field "estado").isScalar

/-- A browser for the concrete cases: it accepts a selector text without
backslash and control character and with exactly two double quotes (34),
which holds for `[data-module="id"]` when `id` is made of letters. -/
def plainHost : Host where
  toLocaleString := fun _ => "Invalid Date"
  inheritedText := fun _ => "[object Object]"
  selectorAccepted := fun text =>
    text.data.all (fun c => decide (32 ≤ c.toNat) && decide (c.toNat ≠ 92))
      && text.data.count (Char.ofNat 34) == 2

/-- The payload of the scenario: projects `P1` and `P2`, and tasks that
refer to `P1`, `P1` and `P2`. -/
def scenarioProyectos : JsVal :=
  .obj [("proyectos",
          .arr [.obj [("id", .str "P1"), ("nombre", .str "Web"), ("descripcion", .str "Sitio"),
                      ("estado", .str "activo")],
                .obj [("id", .str "P2"), ("nombre", .str "App"), ("descripcion", .str "Móvil"),
                      ("estado", .str "en pausa")]]),
        ("tareas", .arr [.obj [("proyecto_id", .str "P1")], .obj [("proyecto_id", .str "P1")],
                         .obj [("proyecto_id", .str "P2")]])]

/-- The modules of the buckets, each paired with the name of its bucket. -/
def bucketContents (byCategory : List (String × List Module)) : List (String × Module) :=
  byCategory.flatMap fun e => e.2.map fun m => (e.1, m)

/-- The calls of `executeModuleAction` among the effects, as pairs of module
type and action name. -/
def executions : List Effect → List (String × String)
  | [] => []
  | .executeModuleAction moduleType action _ :: rest => (moduleType, action) :: executions rest
  | _ :: rest => executions rest

/-- A user who answers the three prompts of `addOportunidad`. -/
def oportunidadUser (titulo valor probabilidad : Option String) : String → Option String :=
  fun message =>
    if message = "Título de la oportunidad:" then titulo
    else if message = "Valor estimado (€):" then valor
    else if message = "Probabilidad (0-100):" then probabilidad
    else none

/-- The first character of a text after its leading white space. -/
def firstChar (s : String) : Option Char := (trimStart s.data).head?


/-- The number of places of a text at which the text `needle` starts. -/
def countAt (needle : List Char) : List Char → Nat
  | [] => 0
  | c :: cs => (if needle.isPrefixOf (c :: cs) then 1 else 0) + countAt needle cs

/-- The number of occurrences of `needle` in `text`. -/
def occurrences (needle text : String) : Nat := countAt needle.data text.data

/-- Whether a text is free of the character `<`, which opens a tag. -/
def noMarkup (text : String) : Bool := !text.data.contains '<'

/-! ## Properties -/

/-! ### Shared lemmas -/

theorem orElse_arr (items : List JsVal) (other : JsVal) :
    (JsVal.arr items).orElse other = .arr items := rfl

theorem getLength_arr (items : List JsVal) :
    getLength (.arr items) = .ok (.num (toString items.length)) := rfl

theorem toDigitsCore_length_pos (fuel n : Nat) (ds : List Char) :
    ds.length + 1 ≤ (Nat.toDigitsCore 10 (fuel + 1) n ds).length := by
  induction fuel generalizing n ds with
  | zero =>
    unfold Nat.toDigitsCore
    by_cases h : n / 10 = 0
    · simp [h]
    · simp [h, Nat.toDigitsCore]
  | succ fuel ih =>
    unfold Nat.toDigitsCore
    by_cases h : n / 10 = 0
    · simp [h]
    · simp only [h, if_false]
      have := ih (n / 10) (Nat.digitChar (n % 10) :: ds)
      simp only [List.length_cons] at this
      omega

theorem toDigits_succ_ne (n : Nat) : Nat.toDigits 10 (n + 1) ≠ ['0'] := by
  unfold Nat.toDigits
  unfold Nat.toDigitsCore
  by_cases h : (n + 1) / 10 = 0
  · simp only [h, if_true]
    have hlt : n + 1 < 10 := by omega
    have hmod : (n + 1) % 10 = n + 1 := Nat.mod_eq_of_lt hlt
    rw [hmod]
    intro hd
    have hn : n < 9 := by omega
    interval_cases n <;> simp [Nat.digitChar] at hd
  · simp only [h, if_false]
    intro hd
    have := toDigitsCore_length_pos n ((n + 1) / 10) [Nat.digitChar ((n + 1) % 10)]
    rw [hd] at this
    simp at this

theorem toString_succ_ne_zero (n : Nat) : toString (n + 1) ≠ "0" := by
  intro h
  have hdata : (toString (n + 1)).data = "0".data := by rw [h]
  exact toDigits_succ_ne n hdata

theorem length_strictEq_zero (items : List JsVal) :
    (JsVal.num (toString items.length)).strictEq (.num "0") = items.isEmpty := by
  cases items with
  | nil => rfl
  | cons v rest =>
    have := toString_succ_ne_zero rest.length
    simp [JsVal.strictEq, this]

theorem toStr_of_isScalar (v : JsVal) (h : v.isScalar = true) :
    v.toStr = .ok v.scalarText := by
  cases v <;> simp_all [JsVal.isScalar, JsVal.toStr, JsVal.scalarText]

theorem get_of_isRecord (v : JsVal) (k : String) (h : v.isRecord = true) :
    v.get k = .ok (v.field k) := by
  cases v <;> simp_all [JsVal.isRecord, JsVal.get, JsVal.field]

theorem orElse_isScalar (v : JsVal) (s : String) (h : v.isScalar = true) :
    (v.orElse (.str s)).isScalar = true := by
  unfold JsVal.orElse
  split
  · exact h
  · rfl

/-! ### Running an action -/

/-- C1, counterexample: the body `{ ok: true }`, without `result`, makes the
read `result.result.message` throw; the `catch` shows the connection error
and neither loader is called.  The same happens when the message is an
object that cannot be converted to a string. -/
theorem executeModuleAction_ok_without_result :
    executeModuleAction ⟨[], some "crm", none⟩ "crm" "add_cliente" []
        (.json (.obj [("ok", .bool true)]))
      = [.fetchPost "/api/module/crm" "add_cliente" [], showError "Error de conexión"] ∧
    Effect.loadDashboard ∉ executeModuleAction ⟨[], some "crm", none⟩ "crm" "add_cliente" []
        (.json (.obj [("ok", .bool true)])) ∧
    executeModuleAction ⟨[], some "crm", none⟩ "crm" "add_cliente" []
        (.json (.obj [("ok", .bool true),
          ("result", .obj [("message", .obj [("toString", .num "1")])])]))
      = [.fetchPost "/api/module/crm" "add_cliente" [], showError "Error de conexión"] := by
  refine ⟨rfl, ?_, rfl⟩
  simp [executeModuleAction, JsVal.get, JsVal.lookup, JsVal.truthy, Except.bind, showError]

/-- C1 (as amended). For every state, module type, action name, parameter
mapping and decoded response whose `ok` is the boolean `ok`: when `ok` is
false, `executeModuleAction` calls neither `loadDashboard` nor
`loadModuleData`; when `ok` is true and the response carries a `result`
record whose `message` is missing or a scalar (a string, say), it calls
`loadDashboard`, and it calls `loadModuleData(moduleType)` exactly when
`state.currentModule` is `moduleType`. -/
theorem executeModuleAction_refresh (state : State) (moduleType action : String)
    (params : Params) (result : JsVal) (ok : Bool)
    (hok : result.get "ok" = .ok (.bool ok))
    (hres : ok = true →
      ∃ r, result.get "result" = .ok r ∧ r.isRecord = true ∧
        (r.field "message").isScalar = true) :
    (ok = false →
      Effect.loadDashboard ∉ executeModuleAction state moduleType action params (.json result) ∧
      ∀ m, Effect.loadModuleData m ∉
        executeModuleAction state moduleType action params (.json result)) ∧
    (ok = true →
      Effect.loadDashboard ∈ executeModuleAction state moduleType action params (.json result) ∧
      (Effect.loadModuleData moduleType ∈
          executeModuleAction state moduleType action params (.json result) ↔
        state.currentModule = some moduleType)) := by
  constructor
  · intro h
    subst h
    cases hr : (result.get "error").bind fun error => error.toStr <;>
      simp [executeModuleAction, hok, JsVal.truthy, showError, hr]
  · intro h
    subst h
    obtain ⟨r, hr, hrec, hscalar⟩ := hres rfl
    have hmsg := get_of_isRecord r "message" hrec
    have htext := toStr_of_isScalar _ (orElse_isScalar _ "Acción completada" hscalar)
    by_cases hc : state.currentModule = some moduleType <;>
      simp [executeModuleAction, hok, JsVal.truthy, hr, hmsg, htext, Except.bind, hc]

/-- C1, witness: a successful response with a message, for the module that
is open. -/
theorem executeModuleAction_refresh_witness :
    Effect.loadDashboard ∈ executeModuleAction ⟨[], some "crm", none⟩ "crm" "add_cliente" []
        (.json (.obj [("ok", .bool true), ("result", .obj [("message", .str "hecho")])])) ∧
    (Effect.loadModuleData "crm" ∈ executeModuleAction ⟨[], some "crm", none⟩ "crm" "add_cliente" []
        (.json (.obj [("ok", .bool true), ("result", .obj [("message", .str "hecho")])])) ↔
      (⟨[], some "crm", none⟩ : State).currentModule = some "crm") :=
  (executeModuleAction_refresh ⟨[], some "crm", none⟩ "crm" "add_cliente" []
    (.obj [("ok", .bool true), ("result", .obj [("message", .str "hecho")])]) true rfl
    (fun _ => ⟨.obj [("message", .str "hecho")], rfl, rfl, rfl⟩)).2 rfl

/-! ### Selecting a module -/

/-- C2, counterexample: with an empty registry, selecting `fantasma` makes it
the current module and requests `/api/module/fantasma`. -/
theorem selectModule_unknown_fetches :
    (selectModule plainHost ⟨[], none, none⟩ "fantasma" .rejected).state.currentModule
      = some "fantasma" ∧
    Effect.fetchGet "/api/module/fantasma" ∈
      (selectModule plainHost ⟨[], none, none⟩ "fantasma" .rejected).effects := by
  constructor
  · rfl
  · have h : plainHost.selectorAccepted (cardSelector "fantasma") = true := by decide
    simp [selectModule, loadModuleData, h]

/-- C2 (as amended). For every registry and every identifier whose card
selector `[data-module="id"]` is a selector, in the registry or not,
`selectModule(id)` completes without an exception, leaves
`state.currentModule` equal to `id` and the registry as it was, calls
`loadModuleData(id)` and so requests `/api/module/{id}`: nothing is checked
against the registry before the request. -/
theorem selectModule_always_fetches (host : Host) (state : State) (id : String)
    (outcome : FetchOutcome) (hselector : host.selectorAccepted (cardSelector id) = true) :
    (selectModule host state id outcome).rejected = false ∧
    (selectModule host state id outcome).state.currentModule = some id ∧
    (selectModule host state id outcome).state.modules = state.modules ∧
    Effect.loadModuleData id ∈ (selectModule host state id outcome).effects ∧
    Effect.fetchGet ("/api/module/" ++ id) ∈ (selectModule host state id outcome).effects := by
  refine ⟨?_, ?_, ?_, ?_, ?_⟩ <;> simp [selectModule, loadModuleData, hselector]

/-- C2, witness: the identifier `fantasma` with an empty registry and a
server that answers `{ ok: true }`. -/
theorem selectModule_always_fetches_witness :
    (selectModule plainHost ⟨[], none, none⟩ "fantasma"
        (.json (.obj [("ok", .bool true)]))).rejected = false ∧
    (selectModule plainHost ⟨[], none, none⟩ "fantasma"
        (.json (.obj [("ok", .bool true)]))).state.currentModule = some "fantasma" ∧
    (selectModule plainHost ⟨[], none, none⟩ "fantasma"
        (.json (.obj [("ok", .bool true)]))).state.modules = [] ∧
    Effect.loadModuleData "fantasma" ∈ (selectModule plainHost ⟨[], none, none⟩ "fantasma"
        (.json (.obj [("ok", .bool true)]))).effects ∧
    Effect.fetchGet ("/api/module/" ++ "fantasma") ∈
      (selectModule plainHost ⟨[], none, none⟩ "fantasma"
        (.json (.obj [("ok", .bool true)]))).effects :=
  selectModule_always_fetches plainHost ⟨[], none, none⟩ "fantasma"
    (.json (.obj [("ok", .bool true)])) (by decide)

/-! ### Prompt-driven actions -/

/-- C7. For every non-empty title, when the value prompt and the probability
prompt are both answered with the empty string or cancelled, `addOportunidad`
shows its three prompts and calls
`executeModuleAction('crm', 'add_oportunidad', params)` exactly once, with
`titulo` the title, `valor` 0, `probabilidad` 50 and `cliente_id` 1. -/
theorem addOportunidad_blank_defaults (user : String → Option String) (titulo : String)
    (htitulo : user "Título de la oportunidad:" = some titulo) (hne : titulo ≠ "")
    (hvalor : isBlank (user "Valor estimado (€):") = true)
    (hprob : isBlank (user "Probabilidad (0-100):") = true) :
    addOportunidad user =
      [.prompt "Título de la oportunidad:", .prompt "Valor estimado (€):",
       .prompt "Probabilidad (0-100):",
       .executeModuleAction "crm" "add_oportunidad"
         [("titulo", .str titulo), ("valor", .number (.ofNat 0)),
          ("probabilidad", .number (.ofNat 50)), ("cliente_id", .number (.ofNat 1))]] := by
  have hv : answerOr (user "Valor estimado (€):") "0" = "0" := by
    cases h : user "Valor estimado (€):" with
    | none => rfl
    | some s =>
      rw [h] at hvalor
      have : s = "" := by simpa [isBlank] using hvalor
      simp [answerOr, this]
  have hp : answerOr (user "Probabilidad (0-100):") "50" = "50" := by
    cases h : user "Probabilidad (0-100):" with
    | none => rfl
    | some s =>
      rw [h] at hprob
      have : s = "" := by simpa [isBlank] using hprob
      simp [answerOr, this]
  have h0 : parseFloat "0" = .ofNat 0 := by decide
  have h50 : parseInt "50" = .ofNat 50 := by decide
  simp [addOportunidad, htitulo, isBlank, hne, hv, hp, h0, h50, ParamVal.ofAnswer]

/-- C7, witness: the title `Web`, an empty value and a cancelled
probability. -/
theorem addOportunidad_blank_defaults_witness :
    addOportunidad (oportunidadUser (some "Web") (some "") none) =
      [.prompt "Título de la oportunidad:", .prompt "Valor estimado (€):",
       .prompt "Probabilidad (0-100):",
       .executeModuleAction "crm" "add_oportunidad"
         [("titulo", .str "Web"), ("valor", .number (.ofNat 0)),
          ("probabilidad", .number (.ofNat 50)), ("cliente_id", .number (.ofNat 1))]] :=
  addOportunidad_blank_defaults (oportunidadUser (some "Web") (some "") none) "Web"
    (by decide) (by decide) (by decide) (by decide)

/-- C8, counterexample: the answer `abc` to both numeric prompts sends
not-a-number for `valor` and for `probabilidad`, not 0 and 50. -/
theorem addOportunidad_abc_sends_nan :
    addOportunidad (oportunidadUser (some "Web") (some "abc") (some "abc")) =
      [.prompt "Título de la oportunidad:", .prompt "Valor estimado (€):",
       .prompt "Probabilidad (0-100):",
       .executeModuleAction "crm" "add_oportunidad"
         [("titulo", .str "Web"), ("valor", .number .nan),
          ("probabilidad", .number .nan), ("cliente_id", .number (.ofNat 1))]] ∧
    JsNumber.nan ≠ JsNumber.ofNat 0 ∧ JsNumber.nan ≠ JsNumber.ofNat 50 := by
  refine ⟨?_, by decide, by decide⟩
  have h1 : parseFloat "abc" = .nan := by decide
  have h2 : parseInt "abc" = .nan := by decide
  simp [addOportunidad, oportunidadUser, isBlank, answerOr, h1, h2, ParamVal.ofAnswer]

theorem not_digit_of_alpha (d : Char) (hletter : d.isAlpha = true) : d.isDigit = false := by
  cases hd : d.isDigit with
  | false => rfl
  | true =>
    exfalso
    simp only [Char.isAlpha, Char.isUpper, Char.isLower, Char.isDigit, Bool.or_eq_true,
      Bool.and_eq_true, decide_eq_true_eq] at hletter hd
    rcases hletter with ⟨h, _⟩ | ⟨h, _⟩ <;>
      exact absurd (UInt32.le_trans h hd.2) (by decide)

theorem splitSign_letter (d : Char) (rest : List Char) (hletter : d.isAlpha = true) :
    splitSign (d :: rest) = (false, d :: rest) := by
  have h1 : d ≠ '-' := by rintro rfl; simp at hletter
  have h2 : d ≠ '+' := by rintro rfl; simp at hletter
  unfold splitSign
  split
  · rename_i heq; simp at heq; exact absurd heq.1 h1
  · rename_i heq; simp at heq; exact absurd heq.1 h2
  · rfl

theorem parseInt_letter (s : String) (c : Char) (hc : firstChar s = some c)
    (hletter : c.isAlpha = true) : parseInt s = .nan := by
  unfold firstChar at hc
  unfold parseInt
  cases ht : trimStart s.data with
  | nil => simp [ht] at hc
  | cons d rest =>
    simp only [ht, List.head?_cons, Option.some.injEq] at hc
    subst hc
    have h3 : d ≠ '0' := by rintro rfl; simp at hletter
    have h4 := not_digit_of_alpha d hletter
    rw [splitSign_letter d rest hletter]
    simp only
    split
    · rename_i heq; simp at heq; exact absurd heq.1 h3
    · rename_i heq; simp at heq; exact absurd heq.1 h3
    · simp [List.takeWhile, h4]

theorem parseFloat_letter (s : String) (c : Char) (hc : firstChar s = some c)
    (hletter : c.isAlpha = true) (hI : c ≠ 'I') : parseFloat s = .nan := by
  unfold firstChar at hc
  unfold parseFloat
  cases ht : trimStart s.data with
  | nil => simp [ht] at hc
  | cons d rest =>
    simp only [ht, List.head?_cons, Option.some.injEq] at hc
    subst hc
    have h3 : d ≠ '.' := by rintro rfl; simp at hletter
    have h4 := not_digit_of_alpha d hletter
    have h5 : ("Infinity".data.isPrefixOf (d :: rest)) = false := by
      have : "Infinity".data = 'I' :: "nfinity".data := rfl
      rw [this]
      simp [List.isPrefixOf, Ne.symm hI]
    rw [splitSign_letter d rest hletter]
    simp only [h5]
    simp [List.takeWhile, List.dropWhile, h4, h3]

/-- C8 (as amended). For every non-empty title and non-blank answers to the
value and probability prompts, `addOportunidad` sends `valor` equal to
`parseFloat` of the value answer and `probabilidad` equal to `parseInt` of the
probability answer, with no fallback for what these cannot read: an answer
whose first character after leading white space is a letter gives
not-a-number for `probabilidad`, and for `valor` too unless the letter is
`I`.  The defaults 0 and 50 apply to blank answers only. -/
theorem addOportunidad_no_numeric_fallback (user : String → Option String)
    (titulo valor probabilidad : String)
    (htitulo : user "Título de la oportunidad:" = some titulo) (hne : titulo ≠ "")
    (hvalor : user "Valor estimado (€):" = some valor) (hvne : valor ≠ "")
    (hprob : user "Probabilidad (0-100):" = some probabilidad) (hpne : probabilidad ≠ "") :
    addOportunidad user =
      [.prompt "Título de la oportunidad:", .prompt "Valor estimado (€):",
       .prompt "Probabilidad (0-100):",
       .executeModuleAction "crm" "add_oportunidad"
         [("titulo", .str titulo), ("valor", .number (parseFloat valor)),
          ("probabilidad", .number (parseInt probabilidad)),
          ("cliente_id", .number (.ofNat 1))]] ∧
    (∀ c, firstChar valor = some c → c.isAlpha = true → c ≠ 'I' → parseFloat valor = .nan) ∧
    (∀ c, firstChar probabilidad = some c → c.isAlpha = true →
      parseInt probabilidad = .nan) := by
  refine ⟨?_, fun c hc hl hI => parseFloat_letter valor c hc hl hI,
    fun c hc hl => parseInt_letter probabilidad c hc hl⟩
  simp [addOportunidad, htitulo, hvalor, hprob, isBlank, answerOr, hne, hvne, hpne,
    ParamVal.ofAnswer]

/-- C8, witness: the answers `abc` and `abc` are sent as not-a-number. -/
theorem addOportunidad_no_numeric_fallback_witness :
    parseFloat "abc" = .nan ∧ parseInt "abc" = .nan :=
  have h := addOportunidad_no_numeric_fallback
    (oportunidadUser (some "Web") (some "abc") (some "abc")) "Web" "abc" "abc"
    (by decide) (by decide) (by decide) (by decide) (by decide) (by decide)
  ⟨h.2.1 'a' (by decide) (by decide) (by decide), h.2.2 'a' (by decide) (by decide)⟩

/-- C10. For `addCliente`, `addOportunidad`, `addProyecto` and
`createFormulario`: when the first prompt is cancelled or answered with the
empty string, the action shows that prompt and does nothing else, so
`executeModuleAction` is not called and no other prompt is shown; when the
first answer is not empty, `executeModuleAction` is called exactly once, with
the module type and action name of the action. -/
theorem actions_abort_or_execute_once (user : String → Option String) :
    (isBlank (user "Nombre del cliente:") = true →
      addCliente user = [.prompt "Nombre del cliente:"]) ∧
    (isBlank (user "Nombre del cliente:") = false →
      executions (addCliente user) = [("crm", "add_cliente")]) ∧
    (isBlank (user "Título de la oportunidad:") = true →
      addOportunidad user = [.prompt "Título de la oportunidad:"]) ∧
    (isBlank (user "Título de la oportunidad:") = false →
      executions (addOportunidad user) = [("crm", "add_oportunidad")]) ∧
    (isBlank (user "Nombre del proyecto:") = true →
      addProyecto user = [.prompt "Nombre del proyecto:"]) ∧
    (isBlank (user "Nombre del proyecto:") = false →
      executions (addProyecto user) = [("proyectos", "add_proyecto")]) ∧
    (isBlank (user "Título del formulario:") = true →
      createFormulario user = [.prompt "Título del formulario:"]) ∧
    (isBlank (user "Título del formulario:") = false →
      executions (createFormulario user) = [("formularios", "create_formulario")]) := by
  refine ⟨?_, ?_, ?_, ?_, ?_, ?_, ?_, ?_⟩ <;> intro h
  · simp [addCliente, h]
  · simp [addCliente, h, executions]
  · simp [addOportunidad, h]
  · simp [addOportunidad, h, executions]
  · simp [addProyecto, h]
  · simp [addProyecto, h, executions]
  · simp [createFormulario, h]
  · simp [createFormulario, h, executions]

/-- C10, witness: a user who cancels every prompt, and one who answers every
prompt with `x`. -/
theorem actions_abort_or_execute_once_witness :
    addCliente (fun _ => none) = [.prompt "Nombre del cliente:"] ∧
    executions (createFormulario fun _ => some "x") = [("formularios", "create_formulario")] :=
  ⟨(actions_abort_or_execute_once fun _ => none).1 rfl,
   (actions_abort_or_execute_once fun _ => some "x").2.2.2.2.2.2.2 rfl⟩

/-! ### Dispatch to the module renderers -/

/-- C9, counterexample: with an empty registry the identifier `inventario`
has no module descriptor, so reading `module.icon` throws and nothing is
rendered. -/
theorem renderModuleContent_outside_registry :
    renderModuleContent plainHost [] "inventario" (.obj []) =
      .error .typeError := by
  rfl

/-- C9 (as amended). For every registry that has a module of the given type
and every payload: an identifier other than `crm`, `proyectos`, `formularios`
and `informes` renders, without failing, the module header followed by the
generic card, whose text contains `JSON.stringify(data, null, 2)`; each of
the four known identifiers renders the header followed by the output of its
named renderer (and fails when that renderer fails). -/
theorem renderModuleContent_dispatch (host : Host) (modules : List Module)
    (moduleType : String) (data : JsVal) (module : Module)
    (hfind : findModule modules moduleType = some module) :
    (moduleType ∉ ["crm", "proyectos", "formularios", "informes"] →
      renderModuleContent host modules moduleType data =
        .ok (moduleHeader module ++ genericDump data) ∧
      genericDump data =
        "<div class=\"module-content-card\">\n            <pre>" ++ stringify data
          ++ "</pre>\n        </div>") ∧
    (moduleType = "crm" →
      renderModuleContent host modules moduleType data =
        (renderCRMContent host data).map fun body => moduleHeader module ++ body) ∧
    (moduleType = "proyectos" →
      renderModuleContent host modules moduleType data =
        (renderProyectosContent data).map fun body => moduleHeader module ++ body) ∧
    (moduleType = "formularios" →
      renderModuleContent host modules moduleType data =
        (renderFormulariosContent data).map fun body => moduleHeader module ++ body) ∧
    (moduleType = "informes" →
      renderModuleContent host modules moduleType data =
        (renderInformesContent host data).map fun body => moduleHeader module ++ body) := by
  refine ⟨?_, ?_, ?_, ?_, ?_⟩
  · intro h
    simp only [List.mem_cons, List.mem_singleton, List.not_mem_nil, or_false, not_or] at h
    obtain ⟨h1, h2, h3, h4⟩ := h
    exact ⟨by simp [renderModuleContent, hfind, h1, h2, h3, h4], rfl⟩
  · intro h; subst h; simp [renderModuleContent, hfind]
  · intro h; subst h; simp [renderModuleContent, hfind]
  · intro h; subst h; simp [renderModuleContent, hfind]
  · intro h; subst h; simp [renderModuleContent, hfind]

/-- C9, witness: the registry holds a module `inventario`, which has no
renderer of its own. -/
theorem renderModuleContent_dispatch_witness :
    renderModuleContent plainHost [inventarioModule] "inventario"
        (.obj [("stock", .num "3")]) =
      .ok (moduleHeader inventarioModule ++ genericDump (.obj [("stock", .num "3")])) :=
  ((renderModuleContent_dispatch plainHost [inventarioModule] "inventario"
    (.obj [("stock", .num "3")]) inventarioModule rfl).1 (by decide)).1

/-! ### Statistic labels -/

theorem isWhitespace_not_word (c : Char) (h : isWhitespace c = true) : isWordChar c = false := by
  simp only [isWhitespace, whitespaceChars, List.contains_eq_any_beq, List.any_cons,
    List.any_nil, Bool.or_false, Bool.or_eq_true, beq_iff_eq] at h
  rcases h with h | h | h | h | h | h | h | h | h | h | h | h | h | h | h | h | h | h | h | h |
    h | h | h | h | h <;> subst h <;> decide

theorem alphanum_not_whitespace (c : Char) (h : c.isAlphanum = true) :
    isWhitespace c = false := by
  cases hw : isWhitespace c with
  | false => rfl
  | true =>
    have := isWhitespace_not_word c hw
    simp [isWordChar, h] at this

theorem upperAtBoundaries_eq_titleCaseTokens (cs : List Char)
    (h : ∀ c ∈ cs, c.isAlphanum = true ∨ isWhitespace c = true) (b : Bool) :
    upperAtBoundaries b cs = titleCaseTokens (!b) cs := by
  induction cs generalizing b with
  | nil => rfl
  | cons c cs ih =>
    have hc := h c (List.mem_cons_self _ _)
    have ih' := fun b => ih (fun d hd => h d (List.mem_cons_of_mem _ hd)) b
    rcases hc with hc | hc
    · have hw := alphanum_not_whitespace c hc
      have hword : isWordChar c = true := by simp [isWordChar, hc]
      simp [upperAtBoundaries, titleCaseTokens, hw, hword, ih']
    · have hword := isWhitespace_not_word c hc
      simp [upperAtBoundaries, titleCaseTokens, hc, hword, ih']

theorem replaceUnderscores_plain (cs : List Char) (h : ∀ c ∈ cs, isPlainKeyChar c = true) :
    ∀ c ∈ replaceUnderscores cs, c.isAlphanum = true ∨ isWhitespace c = true := by
  intro c hc
  simp only [replaceUnderscores, List.mem_map] at hc
  obtain ⟨d, hd, rfl⟩ := hc
  by_cases hu : d = '_'
  · right; simp only [hu, if_true]; decide
  · have := h d hd
    simp only [isPlainKeyChar, Bool.or_eq_true, beq_iff_eq] at this
    simp only [hu, if_false]
    rcases this with (h1 | h1) | h1
    · exact Or.inl h1
    · exact absurd h1 hu
    · exact Or.inr h1

/-- C3, counterexample: on the key `a-b` the code gives `A-B`, because the
`b` after the hyphen stands at a word boundary, while the documented rule
gives `A-b`, the key being a single whitespace-separated token. -/
theorem label_hyphen_differs :
    label "a-b" = "A-B" ∧ documentedLabel "a-b" = "A-b" ∧
    label "a-b" ≠ documentedLabel "a-b" := by
  decide

/-- C3 (as amended). For every statistic key made only of ASCII letters,
digits, underscores and white space, the label `renderDashboard` computes
equals the result of the documented rule (replace every underscore with a
space, then uppercase the first character of each whitespace-separated
token, leaving every other character unchanged); and the key
`clientes_activos` yields `Clientes Activos`. -/
theorem label_eq_documentedLabel (key : String)
    (hkey : ∀ c ∈ key.data, isPlainKeyChar c = true) :
    label key = documentedLabel key ∧ label "clientes_activos" = "Clientes Activos" := by
  refine ⟨?_, by decide⟩
  unfold label documentedLabel
  rw [upperAtBoundaries_eq_titleCaseTokens _ (replaceUnderscores_plain _ hkey) false]
  rfl

/-- C3, witness: the key `total_ventas 2024`. -/
theorem label_eq_documentedLabel_witness :
    label "total_ventas 2024" = documentedLabel "total_ventas 2024" ∧
    label "clientes_activos" = "Clientes Activos" :=
  label_eq_documentedLabel "total_ventas 2024" (by decide)

/-! ### Task counts of the projects view -/

theorem join_cons (s : String) (ss : List String) :
    String.join (s :: ss) = s ++ String.join ss := by
  apply String.ext
  simp [String.join_eq, String.data_append]

theorem filterLength_eq (test : JsVal → Except JsErr Bool) (keep : JsVal → Bool)
    (items : List JsVal) (h : ∀ v ∈ items, test v = .ok (keep v)) :
    filterLength test items = .ok (items.countP keep) := by
  induction items with
  | nil => rfl
  | cons v rest ih =>
    have ih' := ih (fun u hu => h u (List.mem_cons_of_mem _ hu))
    simp only [filterLength, h v (List.mem_cons_self _ _), ih', List.countP_cons]
    cases keep v <;> simp

theorem proyectoRow_eq (tareas : List JsVal) (ht : ∀ t ∈ tareas, t.isRecord = true)
    (proyecto : JsVal) (hp : isProyecto proyecto = true) :
    proyectoRow (.arr tareas) proyecto =
      .ok (proyectoText (proyecto.field "nombre").scalarText
        (proyecto.field "descripcion").scalarText (proyecto.field "estado").scalarText
        (tareas.countP fun t => (t.field "proyecto_id").strictEq (proyecto.field "id"))) := by
  simp only [isProyecto, Bool.and_eq_true] at hp
  obtain ⟨⟨⟨hrec, hn⟩, hd⟩, he⟩ := hp
  have hcount : countTareas (.arr tareas) proyecto =
      .ok (tareas.countP fun t => (t.field "proyecto_id").strictEq (proyecto.field "id")) := by
    unfold countTareas
    apply filterLength_eq
    intro t htm
    simp [get_of_isRecord t _ (ht t htm), get_of_isRecord proyecto _ hrec, bind, Except.bind,
      pure, Except.pure]
  simp [proyectoRow, hcount, get_of_isRecord proyecto _ hrec, toStr_of_isScalar _ hn,
    toStr_of_isScalar _ hd, toStr_of_isScalar _ he, bind, Except.bind, pure, Except.pure]

theorem appendRows_eq (row : JsVal → Except JsErr String) (text : JsVal → String)
    (items : List JsVal) (h : ∀ v ∈ items, row v = .ok (text v)) :
    appendRows row items = .ok (String.join (items.map text)) := by
  induction items with
  | nil => rfl
  | cons v rest ih =>
    have ih' := ih (fun u hu => h u (List.mem_cons_of_mem _ hu))
    simp [appendRows, h v (List.mem_cons_self _ _), ih', join_cons]

theorem strictEq_scalar (a b : JsVal) (ha : a.isScalar = true) (hb : b.isScalar = true) :
    a.strictEq b = true ↔ a = b := by
  cases a <;> cases b <;> simp_all [JsVal.strictEq, JsVal.isScalar]

set_option maxRecDepth 100000

/-- C6. For every Proyectos payload whose `proyectos` is a list of project
records and whose `tareas` is a list of records, `renderProyectosContent`
succeeds and the text it returns carries, in the line of each project `p`
after `Tareas: `, the number of tasks `t` of `tareas` with
`t.proyecto_id === p.id` (on scalars `===` holds exactly between equal
values); the call leaves the payload as it was.  For the projects `P1`, `P2`
and tasks referring to `P1`, `P1`, `P2` the text written carries the counts 2
and 1. -/
theorem renderProyectosContent_task_counts (data : JsVal) (proyectos tareas : List JsVal)
    (hproyectos : data.get "proyectos" = .ok (.arr proyectos))
    (htareas : data.get "tareas" = .ok (.arr tareas))
    (hp : ∀ p ∈ proyectos, isProyecto p = true) (ht : ∀ t ∈ tareas, t.isRecord = true) :
    renderProyectosContent data =
      .ok ("\n        <div class=\"module-content-card\">\n            <h3>📋 Proyectos ("
        ++ toString proyectos.length
        ++ ")</h3>\n            <button class=\"btn\" onclick=\"addProyecto()\">➕ Nuevo Proyecto</button>\n            <div style=\"margin-top: 1rem;\">\n    "
        ++ (if proyectos.isEmpty then "<p>No hay proyectos. Crea el primero para comenzar.</p>"
            else String.join (proyectos.map fun p =>
              "\n                <div style=\"padding: 1rem; border-bottom: 1px solid #e2e8f0;\">\n                    <strong>"
              ++ (p.field "nombre").scalarText
              ++ "</strong><br>\n                    <small>"
              ++ (p.field "descripcion").scalarText
              ++ "</small><br>\n                    <small>📊 Estado: "
              ++ (p.field "estado").scalarText
              ++ " | 📋 Tareas: "
              ++ toString (tareas.countP fun t =>
                  (t.field "proyecto_id").strictEq (p.field "id"))
              ++ "</small>\n                </div>\n            "))
        ++ "</div></div>") ∧
    (∀ a b : JsVal, a.isScalar = true → b.isScalar = true → (a.strictEq b = true ↔ a = b)) ∧
    (callRenderProyectosContent data).1 = data ∧
    (callRenderProyectosContent data).2 = renderProyectosContent data ∧
    renderProyectosContent scenarioProyectos =
      .ok "\n        <div class=\"module-content-card\">\n            <h3>📋 Proyectos (2)</h3>\n            <button class=\"btn\" onclick=\"addProyecto()\">➕ Nuevo Proyecto</button>\n            <div style=\"margin-top: 1rem;\">\n    \n                <div style=\"padding: 1rem; border-bottom: 1px solid #e2e8f0;\">\n                    <strong>Web</strong><br>\n                    <small>Sitio</small><br>\n                    <small>📊 Estado: activo | 📋 Tareas: 2</small>\n                </div>\n            \n                <div style=\"padding: 1rem; border-bottom: 1px solid #e2e8f0;\">\n                    <strong>App</strong><br>\n                    <small>Móvil</small><br>\n                    <small>📊 Estado: en pausa | 📋 Tareas: 1</small>\n                </div>\n            </div></div>" := by
  refine ⟨?_, strictEq_scalar, rfl, rfl, ?_⟩
  · have hrows : appendRows (proyectoRow (.arr tareas)) proyectos =
        .ok (String.join (proyectos.map fun p =>
          proyectoText (p.field "nombre").scalarText (p.field "descripcion").scalarText
            (p.field "estado").scalarText
            (tareas.countP fun t => (t.field "proyecto_id").strictEq (p.field "id")))) :=
      appendRows_eq _ _ proyectos (fun p hpm => proyectoRow_eq tareas ht p (hp p hpm))
    simp only [renderProyectosContent, hproyectos, htareas, bind, Except.bind, pure,
      Except.pure, orElse_arr, getLength_arr, JsVal.toStr, length_strictEq_zero, forEach,
      hrows, proyectosHeader, proyectoText]
    cases proyectos <;> simp
  · rfl

/-- C6, witness: the payload of the scenario. -/
theorem renderProyectosContent_task_counts_witness :
    renderProyectosContent scenarioProyectos =
      .ok "\n        <div class=\"module-content-card\">\n            <h3>📋 Proyectos (2)</h3>\n            <button class=\"btn\" onclick=\"addProyecto()\">➕ Nuevo Proyecto</button>\n            <div style=\"margin-top: 1rem;\">\n    \n                <div style=\"padding: 1rem; border-bottom: 1px solid #e2e8f0;\">\n                    <strong>Web</strong><br>\n                    <small>Sitio</small><br>\n                    <small>📊 Estado: activo | 📋 Tareas: 2</small>\n                </div>\n            \n                <div style=\"padding: 1rem; border-bottom: 1px solid #e2e8f0;\">\n                    <strong>App</strong><br>\n                    <small>Móvil</small><br>\n                    <small>📊 Estado: en pausa | 📋 Tareas: 1</small>\n                </div>\n            </div></div>" ∧
    (callRenderProyectosContent scenarioProyectos).1 = scenarioProyectos :=
  have h := renderProyectosContent_task_counts scenarioProyectos
    [.obj [("id", .str "P1"), ("nombre", .str "Web"), ("descripcion", .str "Sitio"),
           ("estado", .str "activo")],
     .obj [("id", .str "P2"), ("nombre", .str "App"), ("descripcion", .str "Móvil"),
           ("estado", .str "en pausa")]]
    [.obj [("proyecto_id", .str "P1")], .obj [("proyecto_id", .str "P1")],
     .obj [("proyecto_id", .str "P2")]] rfl rfl (by decide) (by decide)
  ⟨h.2.2.2.2, h.2.2.1⟩

/-! ### Grouping the sidebar by category -/

theorem pushInto_contents (category : String) (mod : Module) :
    ∀ (byCategory updated : List (String × List Module)),
      pushInto category mod byCategory = some updated →
      (bucketContents updated).Perm (bucketContents byCategory ++ [(category, mod)]) := by
  intro byCategory
  induction byCategory with
  | nil => intro updated h; simp [pushInto] at h
  | cons e rest ih =>
    intro updated h
    obtain ⟨k, ms⟩ := e
    by_cases hk : k = category
    · subst hk
      simp only [pushInto, if_true, Option.some.injEq] at h
      subst h
      simp only [bucketContents, List.flatMap_cons, List.map_append, List.map_cons, List.map_nil,
        List.append_assoc]
      exact List.Perm.append_left _ List.perm_append_comm
    · simp only [pushInto, hk, if_false, Option.map_eq_some'] at h
      obtain ⟨r, hr, rfl⟩ := h
      have := ih r hr
      simp only [bucketContents, List.flatMap_cons, List.append_assoc] at this ⊢
      exact List.Perm.append_left _ this

theorem addToCategory_contents (byCategory : List (String × List Module)) (mod : Module)
    (hsafe : bucketOf mod ∉ objectPrototypeKeys) :
    ∃ updated, addToCategory byCategory mod = .ok updated ∧
      (bucketContents updated).Perm (bucketContents byCategory ++ [(bucketOf mod, mod)]) := by
  cases hpush : pushInto (bucketOf mod) mod byCategory with
  | some updated =>
    exact ⟨updated, by simp [addToCategory, hpush], pushInto_contents _ _ _ _ hpush⟩
  | none =>
    refine ⟨byCategory ++ [(bucketOf mod, [mod])], by simp [addToCategory, hpush, hsafe], ?_⟩
    simp [bucketContents]

theorem groupFrom_contents (modules : List Module)
    (hsafe : ∀ m ∈ modules, bucketOf m ∉ objectPrototypeKeys) :
    ∀ byCategory : List (String × List Module),
      ∃ grouped, groupFrom byCategory modules = .ok grouped ∧
        (bucketContents grouped).Perm
          (bucketContents byCategory ++ modules.map fun m => (bucketOf m, m)) := by
  induction modules with
  | nil => intro byCategory; exact ⟨byCategory, rfl, by simp⟩
  | cons m rest ih =>
    intro byCategory
    obtain ⟨updated, hadd, hperm⟩ :=
      addToCategory_contents byCategory m (hsafe m (List.mem_cons_self _ _))
    obtain ⟨grouped, hgroup, hperm2⟩ :=
      ih (fun u hu => hsafe u (List.mem_cons_of_mem _ hu)) updated
    refine ⟨grouped, by simp [groupFrom, hadd, hgroup], ?_⟩
    refine hperm2.trans ?_
    simp only [List.map_cons]
    have := List.Perm.append_right (List.map (fun m => (bucketOf m, m)) rest) hperm
    simpa [List.append_assoc] using this

theorem objectEntries_perm {α : Type} (own : List (String × α)) :
    (objectEntries own).Perm own := by
  unfold objectEntries
  refine (List.Perm.append_right _ (List.perm_insertionSort _ _)).trans ?_
  exact List.filter_append_perm _ own

theorem cards_eq_map_contents (entries : List (String × List Module)) :
    (entries.flatMap fun e => e.2.map (moduleCard e.1)) =
      (bucketContents entries).map fun p => moduleCard p.1 p.2 := by
  induction entries with
  | nil => rfl
  | cons e rest ih =>
    simp only [bucketContents, List.flatMap_cons, List.map_append, List.map_map] at ih ⊢
    rw [ih]
    rfl

/-! ### Counting tags in the text written -/

theorem countAt_noMarkup (needle : List Char) (text : String) (rest : List Char)
    (hneedle : needle.head? = some '<') (htext : noMarkup text = true) :
    countAt needle (text.data ++ rest) = countAt needle rest := by
  unfold noMarkup at htext
  generalize text.data = cs at htext
  induction cs with
  | nil => rfl
  | cons c cs ih =>
    have hc : c ≠ '<' := by
      intro h; subst h; simp at htext
    have hcs : (!cs.contains '<') = true := by
      simp only [List.contains_cons, Bool.not_eq_true', Bool.or_eq_false_iff] at htext
      rw [htext.2]; rfl
    cases needle with
    | nil => simp at hneedle
    | cons d ds =>
      simp only [List.head?_cons, Option.some.injEq] at hneedle
      subst hneedle
      have hne : ('<' == c) = false := by simpa using Ne.symm hc
      simp [countAt, List.isPrefixOf, hne, ih hcs]

theorem countAt_join (needle : List Char) (texts : List String) (k : Nat)
    (h : ∀ t ∈ texts, ∀ rest, countAt needle (t.data ++ rest) = k + countAt needle rest)
    (rest : List Char) :
    countAt needle ((String.join texts).data ++ rest) = k * texts.length + countAt needle rest := by
  induction texts with
  | nil => simp [String.join]
  | cons t ts ih =>
    have iht := ih (fun u hu => h u (List.mem_cons_of_mem _ hu))
    rw [join_cons, String.data_append, List.append_assoc, h t (List.mem_cons_self _ _), iht,
      List.length_cons]
    ring

theorem moduleCard_tag_open (rest : List Char) :
    countAt "<div class=\"module-card\"".data
        ("\n                <div class=\"module-card\" data-module=\"".data ++ rest) =
      1 + countAt "<div class=\"module-card\"".data rest := by
  simp [countAt, List.isPrefixOf]

theorem moduleCard_tag_title (rest : List Char) :
    countAt "<div class=\"module-card\"".data
        ("\x27)\">\n                    <h3>".data ++ rest) =
      countAt "<div class=\"module-card\"".data rest := by
  simp [countAt, List.isPrefixOf]

theorem moduleCard_tag_text (rest : List Char) :
    countAt "<div class=\"module-card\"".data
        ("</h3>\n                    <p>".data ++ rest) =
      countAt "<div class=\"module-card\"".data rest := by
  simp [countAt, List.isPrefixOf]

theorem moduleCard_tag_category (rest : List Char) :
    countAt "<div class=\"module-card\"".data
        ("</p>\n                    <div class=\"module-category\">".data ++ rest) =
      countAt "<div class=\"module-card\"".data rest := by
  simp [countAt, List.isPrefixOf]

theorem moduleCard_tag_close (rest : List Char) :
    countAt "<div class=\"module-card\"".data
        ("</div>\n                </div>\n            ".data ++ rest) =
      countAt "<div class=\"module-card\"".data rest := by
  simp [countAt, List.isPrefixOf]

theorem countAt_moduleCard (category : String) (mod : Module) (rest : List Char)
    (htype : noMarkup mod.type = true) (hicon : noMarkup mod.icon = true)
    (hname : noMarkup mod.name = true) (hdescription : noMarkup mod.description = true)
    (hcategory : noMarkup category = true) :
    countAt "<div class=\"module-card\"".data ((moduleCard category mod).data ++ rest) =
      1 + countAt "<div class=\"module-card\"".data rest := by
  have skip : ∀ (text : String) (rest : List Char), noMarkup text = true →
      countAt "<div class=\"module-card\"".data (text.data ++ rest) =
        countAt "<div class=\"module-card\"".data rest :=
    fun text rest h => countAt_noMarkup _ text rest rfl h
  simp only [moduleCard, String.data_append, List.append_assoc]
  rw [moduleCard_tag_open, skip mod.type _ htype,
    skip "\" onclick=\"selectModule(\x27" _ (by decide),
    skip mod.type _ htype, moduleCard_tag_title,
    skip mod.icon _ hicon, skip " " _ (by decide),
    skip mod.name _ hname, moduleCard_tag_text,
    skip mod.description _ hdescription, moduleCard_tag_category,
    skip category _ hcategory, moduleCard_tag_close]

/-- C5, counterexample: a module whose category is the empty string is put
in the bucket `general`, not in a bucket named by its category; and a module
whose category is `constructor` makes the grouping throw, so that no card is
written at all. -/
theorem renderModules_odd_categories :
    moduleCards [⟨"crm", "CRM", "👥", "Clientes", some ""⟩] =
      .ok ["\n                <div class=\"module-card\" data-module=\"" ++ "crm"
        ++ "\" onclick=\"selectModule(\x27" ++ "crm"
        ++ "\x27)\">\n                    <h3>" ++ "👥" ++ " " ++ "CRM"
        ++ "</h3>\n                    <p>" ++ "Clientes"
        ++ "</p>\n                    <div class=\"module-category\">" ++ "general"
        ++ "</div>\n                </div>\n            "] ∧
    renderModules [⟨"crm", "CRM", "👥", "Clientes", some "constructor"⟩] =
      .error .typeError := by
  constructor <;> rfl

/-- C5 (as amended). For every non-empty module list in which no bucket name
is a property name inherited from `Object.prototype`, `renderModules`
succeeds; every module is in exactly one bucket, named by its category, or
`general` when the category is absent or empty; the text written is made of
exactly one card per module, whatever the number of buckets, each card
showing the bucket name of its module in its `module-category` line; and
when the texts of the modules hold no `<`, the number of `module-card` tags
in the text written equals `state.modules.length`. -/
theorem renderModules_one_card_per_module (modules : List Module) (hne : modules ≠ [])
    (hsafe : ∀ m ∈ modules, bucketOf m ∉ objectPrototypeKeys) :
    ∃ byCategory cards html,
      groupByCategory modules = .ok byCategory ∧
      (bucketContents byCategory).Perm (modules.map fun m => (bucketOf m, m)) ∧
      (∀ m ∈ modules,
        (m.category = none ∨ m.category = some "" → bucketOf m = "general") ∧
        (∀ c, m.category = some c → c ≠ "" → bucketOf m = c)) ∧
      renderModules modules = .ok html ∧
      html = String.join cards ∧
      cards.length = modules.length ∧
      cards.Perm (modules.map fun m =>
        "\n                <div class=\"module-card\" data-module=\"" ++ m.type
          ++ "\" onclick=\"selectModule(\x27" ++ m.type
          ++ "\x27)\">\n                    <h3>" ++ m.icon ++ " " ++ m.name
          ++ "</h3>\n                    <p>" ++ m.description
          ++ "</p>\n                    <div class=\"module-category\">" ++ bucketOf m
          ++ "</div>\n                </div>\n            ") ∧
      ((∀ m ∈ modules, noMarkup m.type = true ∧ noMarkup m.icon = true ∧
          noMarkup m.name = true ∧ noMarkup m.description = true ∧
          noMarkup (bucketOf m) = true) →
        occurrences "<div class=\"module-card\"" html = modules.length) := by
  obtain ⟨grouped, hgroup, hperm⟩ := groupFrom_contents modules hsafe []
  have hperm0 : (bucketContents grouped).Perm (modules.map fun m => (bucketOf m, m)) := by
    simpa [bucketContents] using hperm
  have hcards : moduleCards modules =
      .ok ((objectEntries grouped).flatMap fun e => e.2.map (moduleCard e.1)) := by
    simp [moduleCards, groupByCategory, hgroup]
  have hpermCards : ((objectEntries grouped).flatMap fun e => e.2.map (moduleCard e.1)).Perm
      (modules.map fun m => moduleCard (bucketOf m) m) := by
    rw [cards_eq_map_contents]
    have h1 : (bucketContents (objectEntries grouped)).Perm (bucketContents grouped) :=
      List.Perm.flatMap_right _ (objectEntries_perm grouped)
    have h2 := (h1.trans hperm0).map fun p => moduleCard p.1 p.2
    simpa [List.map_map, Function.comp] using h2
  have hlen : modules.length ≠ 0 := by
    cases modules with
    | nil => exact absurd rfl hne
    | cons m rest => simp
  refine ⟨grouped, _, _, hgroup, hperm0, ?_, ?_, rfl, ?_, hpermCards, ?_⟩
  · intro m _
    refine ⟨?_, ?_⟩
    · rintro (h | h) <;> simp [bucketOf, h]
    · intro c h hc
      simp [bucketOf, h, hc]
  · simp [renderModules, hlen, hcards]
  · simpa using hpermCards.length_eq
  · intro hclean
    have hcount := countAt_join "<div class=\"module-card\"".data
      ((objectEntries grouped).flatMap fun e => e.2.map (moduleCard e.1)) 1 (by
        intro t ht rest
        obtain ⟨m, hm, rfl⟩ := List.mem_map.1 ((hpermCards.mem_iff).1 ht)
        obtain ⟨h1, h2, h3, h4, h5⟩ := hclean m hm
        exact countAt_moduleCard _ m rest h1 h2 h3 h4 h5) []
    simp only [List.append_nil, countAt, Nat.add_zero, Nat.one_mul] at hcount
    rw [occurrences, hcount]
    simpa using hpermCards.length_eq

/-- C5, witness: three modules in two buckets, one of them without
category. -/
theorem renderModules_one_card_per_module_witness :
    ∃ html,
      renderModules
        [⟨"crm", "CRM", "👥", "Clientes", some "ventas"⟩,
     ⟨"proyectos", "Proyectos", "📋", "Tareas", none⟩,
     ⟨"informes", "Informes", "📊", "Resumen", some "ventas"⟩] = .ok html ∧
      occurrences "<div class=\"module-card\"" html = 3 :=
  have ⟨_, _, html, _, _, _, hrender, _, _, _, hcount⟩ :=
    renderModules_one_card_per_module
      [⟨"crm", "CRM", "👥", "Clientes", some "ventas"⟩,
     ⟨"proyectos", "Proyectos", "📋", "Tareas", none⟩,
     ⟨"informes", "Informes", "📊", "Resumen", some "ventas"⟩] (by simp) (by decide)
  ⟨html, hrender, hcount (by decide)⟩

/-! ### Dashboard cards -/

theorem findModule_isSome (modules : List Module) (id : String) :
    (findModule modules id).isSome = inRegistry modules id := by
  induction modules with
  | nil => rfl
  | cons m rest ih =>
    unfold findModule inRegistry at ih ⊢
    cases h : m.type == id with
    | true => simp [List.find?_cons, h]
    | false => simpa [List.find?_cons, h] using ih

theorem toUpper_ne_lt (c : Char) (h : c ≠ '<') : c.toUpper ≠ '<' := by
  unfold Char.toUpper
  simp only
  split
  · rename_i hl
    intro heq
    have hk : 65 ≤ c.toNat - 32 ∧ c.toNat - 32 ≤ 90 := by
      obtain ⟨h1, h2⟩ := hl
      omega
    generalize c.toNat - 32 = k at heq hk
    obtain ⟨hk1, hk2⟩ := hk
    interval_cases k <;> exact absurd heq (by decide)
  · exact h

theorem upperAtBoundaries_noMarkup (cs : List Char) (h : ∀ c ∈ cs, c ≠ '<') (b : Bool) :
    ∀ c ∈ upperAtBoundaries b cs, c ≠ '<' := by
  induction cs generalizing b with
  | nil => intro c hc; simp [upperAtBoundaries] at hc
  | cons d ds ih =>
    intro c hc
    simp only [upperAtBoundaries, List.mem_cons] at hc
    rcases hc with hc | hc
    · subst hc
      have hd := h d (List.mem_cons_self _ _)
      split
      · exact toUpper_ne_lt d hd
      · exact hd
    · exact ih (fun e he => h e (List.mem_cons_of_mem _ he)) _ c hc

theorem noMarkup_iff (text : String) : noMarkup text = true ↔ ∀ c ∈ text.data, c ≠ '<' := by
  unfold noMarkup
  simp only [Bool.not_eq_true', List.contains_eq_any_beq, List.any_eq_false, beq_iff_eq]
  constructor
  · intro h c hc heq; exact h c hc heq.symm
  · intro h c hc heq; exact h c hc heq.symm

theorem noMarkup_label (key : String) (h : noMarkup key = true) :
    noMarkup (label key) = true := by
  rw [noMarkup_iff] at h ⊢
  unfold label
  apply upperAtBoundaries_noMarkup
  intro c hc
  simp only [replaceUnderscores, List.mem_map] at hc
  obtain ⟨d, hd, rfl⟩ := hc
  split
  · decide
  · exact h d hd

theorem dashboardCard_tag_open (rest : List Char) :
    countAt "<div class=\"dashboard-card\">".data
        ("\n            <div class=\"dashboard-card\">\n                <h3>".data ++ rest) =
      1 + countAt "<div class=\"dashboard-card\">".data rest := by
  simp [countAt, List.isPrefixOf]

theorem dashboardCard_tag_title (rest : List Char) :
    countAt "<div class=\"dashboard-card\">".data
        ("</h3>\n        ".data ++ rest) =
      countAt "<div class=\"dashboard-card\">".data rest := by
  simp [countAt, List.isPrefixOf]

theorem dashboardCard_tag_close (rest : List Char) :
    countAt "<div class=\"dashboard-card\">".data
        ("</div>".data ++ rest) =
      countAt "<div class=\"dashboard-card\">".data rest := by
  simp [countAt, List.isPrefixOf]

theorem dashboardStat_tag_label (rest : List Char) :
    countAt "<div class=\"dashboard-card\">".data
        ("\n                <div class=\"dashboard-stat\">\n                    <span class=\"label\">".data ++ rest) =
      countAt "<div class=\"dashboard-card\">".data rest := by
  simp [countAt, List.isPrefixOf]

theorem dashboardStat_tag_value (rest : List Char) :
    countAt "<div class=\"dashboard-card\">".data
        ("</span>\n                    <span class=\"value\">".data ++ rest) =
      countAt "<div class=\"dashboard-card\">".data rest := by
  simp [countAt, List.isPrefixOf]

theorem dashboardStat_tag_close (rest : List Char) :
    countAt "<div class=\"dashboard-card\">".data
        ("</span>\n                </div>\n            ".data ++ rest) =
      countAt "<div class=\"dashboard-card\">".data rest := by
  simp [countAt, List.isPrefixOf]

theorem countAt_dashboardStat (key : String) (value : StatValue) (rest : List Char)
    (hkey : noMarkup key = true) (hvalue : noMarkup value.text = true) :
    countAt "<div class=\"dashboard-card\">".data ((dashboardStat key value).data ++ rest) =
      0 + countAt "<div class=\"dashboard-card\">".data rest := by
  have skip : ∀ (text : String) (rest : List Char), noMarkup text = true →
      countAt "<div class=\"dashboard-card\">".data (text.data ++ rest) =
        countAt "<div class=\"dashboard-card\">".data rest :=
    fun text rest h => countAt_noMarkup _ text rest rfl h
  simp only [dashboardStat, String.data_append, List.append_assoc]
  rw [dashboardStat_tag_label, skip (label key) _ (noMarkup_label key hkey),
    dashboardStat_tag_value, skip value.text _ hvalue, dashboardStat_tag_close, Nat.zero_add]

theorem countAt_dashboardCard (module : Module) (summary : List (String × StatValue))
    (rest : List Char) (hicon : noMarkup module.icon = true)
    (hname : noMarkup module.name = true)
    (hsummary : ∀ kv ∈ summary, noMarkup kv.1 = true ∧ noMarkup kv.2.text = true) :
    countAt "<div class=\"dashboard-card\">".data ((dashboardCard module summary).data ++ rest) =
      1 + countAt "<div class=\"dashboard-card\">".data rest := by
  have skip : ∀ (text : String) (rest : List Char), noMarkup text = true →
      countAt "<div class=\"dashboard-card\">".data (text.data ++ rest) =
        countAt "<div class=\"dashboard-card\">".data rest :=
    fun text rest h => countAt_noMarkup _ text rest rfl h
  have hstats := countAt_join "<div class=\"dashboard-card\">".data
    (summary.map fun kv => dashboardStat kv.1 kv.2) 0 (by
      intro t ht rest
      obtain ⟨kv, hkv, rfl⟩ := List.mem_map.1 ht
      exact countAt_dashboardStat kv.1 kv.2 rest (hsummary kv hkv).1 (hsummary kv hkv).2)
  simp only [dashboardCard, String.data_append, List.append_assoc]
  rw [dashboardCard_tag_open, skip module.icon _ hicon, skip " " _ (by decide),
    skip module.name _ hname, dashboardCard_tag_title, hstats, dashboardCard_tag_close]
  simp

theorem countAt_dashboardCards (modules : List Module) (summaries : List ModSummary)
    (hmodules : ∀ m ∈ modules, noMarkup m.icon = true ∧ noMarkup m.name = true)
    (hsummaries : ∀ s ∈ summaries, ∀ kv ∈ s.summary,
      noMarkup kv.1 = true ∧ noMarkup kv.2.text = true) :
    countAt "<div class=\"dashboard-card\">".data
        (String.join (dashboardCards modules summaries)).data =
      summaries.countP fun s => inRegistry modules s.module := by
  induction summaries with
  | nil => rfl
  | cons s rest ih =>
    have ih' := ih (fun u hu => hsummaries u (List.mem_cons_of_mem _ hu))
    cases hf : findModule modules s.module with
    | none =>
      have hin : inRegistry modules s.module = false := by
        rw [← findModule_isSome, hf]; rfl
      simp only [dashboardCards, hf, List.countP_cons, hin]
      simpa using ih'
    | some m =>
      have hin : inRegistry modules s.module = true := by
        rw [← findModule_isSome, hf]; rfl
      have hm : m ∈ modules := List.mem_of_find?_eq_some hf
      simp only [dashboardCards, hf, List.countP_cons, hin, join_cons, String.data_append]
      rw [countAt_dashboardCard m s.summary _ (hmodules m hm).1 (hmodules m hm).2
        (hsummaries s (List.mem_cons_self _ _)), ih']
      simp [Nat.add_comm]

/-- C4. For every registry, every current module and every list of summary
entries, `renderDashboard` returns normally and the text it writes is, in
the order of the summary, exactly one card for each entry whose `module` is
the type of a registry module (the header of the module found, then one line
per statistic) and nothing for any other entry: removing the other entries
leaves the text unchanged, and the number of cards is the number of entries
whose module is in the registry.  When the texts shown hold no `<`, that
number is also the number of `dashboard-card` tags in the text written. -/
theorem dashboardCards_skip_unknown (modules : List Module) (summaries : List ModSummary) :
    ∃ cards : List String,
      cards = (summaries.filter fun s => inRegistry modules s.module).filterMap (fun s =>
        (modules.find? fun m => m.type == s.module).map fun m =>
          "\n            <div class=\"dashboard-card\">\n                <h3>" ++ m.icon ++ " " ++ m.name
          ++ "</h3>\n        "
          ++ String.join (s.summary.map fun kv =>
              "\n                <div class=\"dashboard-stat\">\n                    <span class=\"label\">"
              ++ label kv.1
              ++ "</span>\n                    <span class=\"value\">" ++ kv.2.text
              ++ "</span>\n                </div>\n            ")
          ++ "</div>") ∧
      cards.length = summaries.countP (fun s => inRegistry modules s.module) ∧
      (∀ current, renderDashboard ⟨modules, current, some ⟨some summaries⟩⟩ =
        String.join cards) ∧
      (∀ current,
        renderDashboard
            ⟨modules, current,
              some ⟨some (summaries.filter fun s => inRegistry modules s.module)⟩⟩ =
          renderDashboard ⟨modules, current, some ⟨some summaries⟩⟩) ∧
      (∀ id, inRegistry modules id = true ↔ ∃ m ∈ modules, m.type = id) ∧
      (∀ text, (StatValue.num text).text = text ∧ (StatValue.str text).text = text) ∧
      ((∀ m ∈ modules, noMarkup m.icon = true ∧ noMarkup m.name = true) →
        (∀ s ∈ summaries, ∀ kv ∈ s.summary,
          noMarkup kv.1 = true ∧ noMarkup kv.2.text = true) →
        ∀ current,
          occurrences "<div class=\"dashboard-card\">"
              (renderDashboard ⟨modules, current, some ⟨some summaries⟩⟩) =
            summaries.countP fun s => inRegistry modules s.module) := by
  have key : ∀ ss : List ModSummary,
      dashboardCards modules ss =
        (ss.filter fun s => inRegistry modules s.module).filterMap
          (fun s => (findModule modules s.module).map fun m => dashboardCard m s.summary) ∧
      (dashboardCards modules ss).length =
        (ss.filter fun s => inRegistry modules s.module).length := by
    intro ss
    induction ss with
    | nil => exact ⟨rfl, rfl⟩
    | cons s rest ih =>
      cases hf : findModule modules s.module with
      | none =>
        have hin : inRegistry modules s.module = false := by
          rw [← findModule_isSome, hf]; rfl
        simp only [dashboardCards, hf, List.filter_cons, hin]
        exact ih
      | some m =>
        have hin : inRegistry modules s.module = true := by
          rw [← findModule_isSome, hf]; rfl
        simp only [dashboardCards, hf, List.filter_cons, hin, if_true, List.filterMap_cons,
          Option.map_some', List.length_cons]
        exact ⟨by rw [ih.1], by rw [ih.2]⟩
  have hfix : dashboardCards modules (summaries.filter fun s => inRegistry modules s.module) =
      dashboardCards modules summaries := by
    rw [(key summaries).1, (key _).1, List.filter_filter]
    simp
  refine ⟨dashboardCards modules summaries, (key summaries).1, ?_, fun _ => rfl, ?_, ?_, ?_, ?_⟩
  · rw [(key summaries).2, List.countP_eq_length_filter]
  · intro current
    simp only [renderDashboard, hfix]
  · intro id
    simp [inRegistry]
  · intro text
    exact ⟨rfl, rfl⟩
  · intro hmodules hsummaries current
    exact countAt_dashboardCards modules summaries hmodules hsummaries

/-- C4, witness: a registry with the module `crm` and a summary with one
entry for it and one for a module that is not registered. -/
theorem dashboardCards_skip_unknown_witness :
    occurrences "<div class=\"dashboard-card\">"
        (renderDashboard
          ⟨[⟨"crm", "CRM", "👥", "Clientes", some "ventas"⟩], some "crm",
            some ⟨some [⟨"crm", [("clientes_activos", .num "3")]⟩,
                        ⟨"almacen", [("piezas", .num "12.5")]⟩]⟩⟩) = 1 :=
  have ⟨_, _, _, _, _, _, _, hcount⟩ := dashboardCards_skip_unknown
    [⟨"crm", "CRM", "👥", "Clientes", some "ventas"⟩]
    [⟨"crm", [("clientes_activos", .num "3")]⟩, ⟨"almacen", [("piezas", .num "12.5")]⟩]
  hcount (by decide) (by decide) (some "crm")

end BizCore
